import Mathlib

/-!
# Verification of the ABG-interpreter proxy against its specification

This file embeds the post-upstream processing pipelines of the repository's
serverless handlers (the OCR measured-value pipeline, the analysis-result
finalisation, the request gates, the background job workers and the
defensive JSON extraction layer) as executable Lean definitions, and settles
the frozen claims about them.

Modelling conventions:
* JavaScript numbers are modelled by the scaled-decimal type `JsNum`
  (an integer mantissa over a power of ten).  All arithmetic the handlers
  perform (comparison, addition, multiplication, rounding to a fixed number
  of decimals, decimal rendering) is closed on this fragment, and on it
  IEEE-754 doubles and exact decimal arithmetic agree for the magnitudes
  involved.  `JsNum.toRat` gives the numeric meaning, and bridge lemmas
  relate the executable comparisons to the order on `ℚ`.
* A parsed JSON document is the inductive type `Json`.  `JSON.parse` of the
  JavaScript platform is modelled by the strict parser `jsonParse` below
  (no trailing commas, full consumption, JSON-spec number grammar).
* JavaScript object field access/update is modelled on association lists;
  the objects the handlers build and read have pairwise-distinct keys.
* Property assignment on a non-object: in sloppy mode (the CommonJS
  revision of `analyze.js`) it is a silent no-op on primitives, and on an
  array it creates a property that `JSON.stringify` does not serialise;
  both are modelled as the identity on the serialised value.  Reading a
  property of `null` throws, which is modelled by the error branch that the
  surrounding `try`/`catch` of the handler turns into an HTTP 500.
-/

/-! ## Character and string utilities shared by the handler models -/

/-- Characters treated as whitespace by `String.prototype.trim` and by the
`\s` regex class (the ASCII part, which is all the handlers' data contains). -/
def jsWs (c : Char) : Bool :=
  c = ' ' ∨ c = '\t' ∨ c = '\n' ∨ c = '\r' ∨ c = '\x0b' ∨ c = '\x0c'

/-- Drop leading whitespace characters. -/
def dropWsL : List Char → List Char
  | [] => []
  | c :: cs => if jsWs c then dropWsL cs else c :: cs

/-- `String.prototype.trim`, on character lists. -/
def trimL (cs : List Char) : List Char :=
  (dropWsL ((dropWsL cs.reverse)).reverse)

/-- `String.prototype.trim`. -/
def jsTrim (s : String) : String := String.mk (trimL s.data)

/-- Does `pat` occur at the head of `cs`? -/
def startsWithSeq : List Char → List Char → Bool
  | [], _ => true
  | _ :: _, [] => false
  | p :: ps, c :: cs => p = c && startsWithSeq ps cs

/-- Does `needle` occur anywhere in `hay`? -/
def containsSeq (needle : List Char) : List Char → Bool
  | [] => startsWithSeq needle []
  | c :: cs => startsWithSeq needle (c :: cs) || containsSeq needle cs

/-- String containment (`hay` contains `needle` as a contiguous substring). -/
def containsSub (hay needle : String) : Bool :=
  containsSeq needle.data hay.data

/-- Fuel-indexed list-replacement: replace every occurrence of the
(nonempty) pattern `pat` in `cs` by `rep`, left to right, as
`String.prototype.replace` with a global literal pattern does. -/
def replaceAllF (pat rep : List Char) : Nat → List Char → List Char
  | 0, cs => cs
  | _ + 1, [] => []
  | fuel + 1, c :: cs =>
    if startsWithSeq pat (c :: cs) ∧ pat ≠ [] then
      rep ++ replaceAllF pat rep fuel (List.drop pat.length (c :: cs))
    else
      c :: replaceAllF pat rep fuel cs

/-- `s.replace(/pat/g, rep)` for a literal pattern. -/
def jsReplaceAll (s pat rep : String) : String :=
  String.mk (replaceAllF pat.data rep.data s.data.length s.data)

/-- Replace the first occurrence of `pat` (a plain-string pattern, as
`String.prototype.replace` with a non-global string argument). -/
def replaceFirstL (pat rep : List Char) : Nat → List Char → List Char
  | 0, cs => cs
  | _ + 1, [] => []
  | fuel + 1, c :: cs =>
    if startsWithSeq pat (c :: cs) ∧ pat ≠ [] then
      rep ++ List.drop pat.length (c :: cs)
    else c :: replaceFirstL pat rep fuel cs

/-- `s.replace(pat, rep)` (first occurrence only). -/
def jsReplaceFirst (s pat rep : String) : String :=
  String.mk (replaceFirstL pat.data rep.data s.data.length s.data)

/-- Index of the first occurrence of `c`, as `String.prototype.indexOf`
(`none` models `-1`). -/
def idxOfChar (c : Char) : List Char → Option Nat
  | [] => none
  | d :: ds => if d = c then some 0 else (idxOfChar c ds).map (· + 1)

/-- Index of the last occurrence of `c`, as `String.prototype.lastIndexOf`. -/
def lastIdxOfChar (c : Char) (cs : List Char) : Option Nat :=
  (idxOfChar c cs.reverse).map (fun i => cs.length - 1 - i)

/-- `s.substring(a, b)` (with `a ≤ b` in the uses modelled here). -/
def jsSubstring (s : String) (a b : Nat) : String :=
  String.mk ((s.data.drop a).take (b - a))

/-- Decimal digit test. -/
def isDigitC (c : Char) : Bool := '0' ≤ c && c ≤ '9'

/-- Split a leading run of decimal digits. -/
def takeDigits : List Char → (List Char × List Char)
  | [] => ([], [])
  | c :: cs =>
    if isDigitC c then
      let (ds, rest) := takeDigits cs
      (c :: ds, rest)
    else ([], c :: cs)

/-- Numeric value of a digit list (most significant first). -/
def digitsToNat : List Char → Nat
  | [] => 0
  | c :: cs => (c.toNat - '0'.toNat) * 10 ^ cs.length + digitsToNat cs

/-- Decimal digits of `n`, with explicit fuel (structural, kernel-reducible). -/
def natDigitsF : Nat → Nat → List Char
  | 0, _ => []
  | fuel + 1, n =>
    if n < 10 then [Char.ofNat ('0'.toNat + n)]
    else natDigitsF fuel (n / 10) ++ [Char.ofNat ('0'.toNat + n % 10)]

/-- Decimal rendering of a natural number. -/
def natToStr (n : Nat) : String := String.mk (natDigitsF (n + 1) n)

/-- ASCII upper-casing, modelling `String.prototype.toUpperCase` on the
key names it is applied to. -/
def jsToUpper (s : String) : String :=
  String.mk (s.data.map fun c =>
    if 'a' ≤ c ∧ c ≤ 'z' then Char.ofNat (c.toNat - 32) else c)

/-! ## Scaled-decimal numbers

`JsNum` represents `m / 10 ^ e`.  Every arithmetic operation the handlers
perform stays inside this fragment, so all computation is on `ℤ`/`ℕ` and
reduces in the kernel. -/

/-- A JavaScript number in the handlers' decimal fragment: `m / 10 ^ e`. -/
structure JsNum where
  m : ℤ
  e : ℕ
deriving DecidableEq, Repr

namespace JsNum

/-- Numeric meaning. -/
def toRat (x : JsNum) : ℚ := (x.m : ℚ) / (10 : ℚ) ^ x.e

/-- Executable `≤` (cross-multiplied). -/
def leB (x y : JsNum) : Bool := decide (x.m * (10 : ℤ) ^ y.e ≤ y.m * (10 : ℤ) ^ x.e)

/-- Executable `<` (cross-multiplied). -/
def ltB (x y : JsNum) : Bool := decide (x.m * (10 : ℤ) ^ y.e < y.m * (10 : ℤ) ^ x.e)

/-- Executable numeric equality (cross-multiplied). -/
def eqB (x y : JsNum) : Bool := decide (x.m * (10 : ℤ) ^ y.e = y.m * (10 : ℤ) ^ x.e)

/-- Is the value zero (JavaScript falsiness of a number)? -/
def isZero (x : JsNum) : Bool := x.m = 0

/-- Negation. -/
def neg (x : JsNum) : JsNum := ⟨-x.m, x.e⟩

/-- Addition (align the scales). -/
def add (x y : JsNum) : JsNum :=
  ⟨x.m * (10 : ℤ) ^ (max x.e y.e - x.e) + y.m * (10 : ℤ) ^ (max x.e y.e - y.e),
   max x.e y.e⟩

/-- Subtraction. -/
def sub (x y : JsNum) : JsNum := add x (neg y)

/-- Multiplication. -/
def mul (x y : JsNum) : JsNum := ⟨x.m * y.m, x.e + y.e⟩

/-- `⌊a / d + 1/2⌋` for `d > 0`: the rounding used by `toFixed`
("if two candidates are equally near, the larger is taken"). -/
def roundHalfUp (a d : ℤ) : ℤ := Int.fdiv (2 * a + d) (2 * d)

/-- `+(x).toFixed(3)` as a number: round to 3 decimal places. -/
def toFix3 (x : JsNum) : JsNum :=
  if x.e ≤ 3 then ⟨x.m * (10 : ℤ) ^ (3 - x.e), 3⟩
  else ⟨roundHalfUp x.m ((10 : ℤ) ^ (x.e - 3)), 3⟩

/-- Strip trailing `'0'` characters. -/
def stripTrailZeros (ds : List Char) : List Char :=
  (ds.reverse.dropWhile (· = '0')).reverse

/-- Left-pad a digit list with `'0'` to length `n`. -/
def padZeros (n : Nat) (ds : List Char) : List Char :=
  List.replicate (n - ds.length) '0' ++ ds

/-- JavaScript number-to-string conversion (template-literal `${n}`) for
the terminating decimals of this fragment: canonical decimal, no trailing
fractional zeros, no decimal point for integers. -/
def render (x : JsNum) : String :=
  let sign := if x.m < 0 then "-" else ""
  let a : ℕ := x.m.natAbs
  let ip : ℕ := a / 10 ^ x.e
  let fr : ℕ := a % 10 ^ x.e
  if fr = 0 then sign ++ natToStr ip
  else
    sign ++ natToStr ip ++ "." ++
      String.mk (stripTrailZeros (padZeros x.e (natDigitsF (fr + 1) fr)))

/-- `x.toFixed(d)` as a string (exactly `d` decimals). -/
def toFixedStr (d : Nat) (x : JsNum) : String :=
  let n : ℤ :=
    if x.e ≤ d then x.m * (10 : ℤ) ^ (d - x.e)
    else roundHalfUp x.m ((10 : ℤ) ^ (x.e - d))
  let sign := if n < 0 then "-" else ""
  let ds := natDigitsF (n.natAbs + 1) n.natAbs
  let padded := padZeros (d + 1) ds
  if d = 0 then sign ++ String.mk padded
  else
    sign ++ String.mk (padded.take (padded.length - d)) ++ "." ++
      String.mk (padded.drop (padded.length - d))

theorem pow_pos10 (e : ℕ) : (0 : ℚ) < (10 : ℚ) ^ e := by positivity

/-- Bridge: the executable `≤` agrees with the order on `ℚ`. -/
theorem leB_iff (x y : JsNum) : leB x y = true ↔ x.toRat ≤ y.toRat := by
  unfold leB toRat
  rw [decide_eq_true_eq, div_le_div_iff₀ (pow_pos10 x.e) (pow_pos10 y.e)]
  constructor
  · intro h; exact_mod_cast h
  · intro h; exact_mod_cast h

/-- Bridge: the executable `<` agrees with the order on `ℚ`. -/
theorem ltB_iff (x y : JsNum) : ltB x y = true ↔ x.toRat < y.toRat := by
  unfold ltB toRat
  rw [decide_eq_true_eq, div_lt_div_iff₀ (pow_pos10 x.e) (pow_pos10 y.e)]
  constructor
  · intro h; exact_mod_cast h
  · intro h; exact_mod_cast h

/-- Bridge: the executable equality agrees with equality on `ℚ`. -/
theorem eqB_iff (x y : JsNum) : eqB x y = true ↔ x.toRat = y.toRat := by
  unfold eqB toRat
  rw [decide_eq_true_eq,
    div_eq_div_iff (ne_of_gt (pow_pos10 x.e)) (ne_of_gt (pow_pos10 y.e))]
  constructor
  · intro h; exact_mod_cast h
  · intro h; exact_mod_cast h

/-- Bridge: zero test. -/
theorem isZero_iff (x : JsNum) : isZero x = true ↔ x.toRat = 0 := by
  unfold isZero toRat
  rw [div_eq_zero_iff]
  constructor
  · intro h
    left
    exact_mod_cast decide_eq_true_eq.mp h
  · intro h
    apply decide_eq_true_eq.mpr
    rcases h with h | h
    · exact_mod_cast h
    · exact absurd h (ne_of_gt (pow_pos10 x.e))

/-- Bridge: multiplication. -/
theorem mul_toRat (x y : JsNum) : (mul x y).toRat = x.toRat * y.toRat := by
  unfold mul toRat
  push_cast
  rw [pow_add]
  field_simp

end JsNum

/-! ## JSON values and a strict parser modelling `JSON.parse`

The parser follows the JSON grammar: no trailing commas, `0`-prefixed
integers rejected, fraction/exponent digits required, full consumption of
the input (modulo surrounding JSON whitespace).  Recursion is structural on
an explicit fuel so that all results compute by kernel reduction. -/

/-- JSON values, as produced by a successful `JSON.parse`. -/
inductive Json where
  | jnull : Json
  | jbool : Bool → Json
  | jnum : JsNum → Json
  | jstr : String → Json
  | jarr : List Json → Json
  | jobj : List (String × Json) → Json

open Json

/-- JSON whitespace (space, tab, line feed, carriage return). -/
def jsonWsC (c : Char) : Bool :=
  c = ' ' ∨ c = '\t' ∨ c = '\n' ∨ c = '\r'

/-- Drop leading JSON whitespace. -/
def dropJsonWs : List Char → List Char
  | [] => []
  | c :: cs => if jsonWsC c then dropJsonWs cs else c :: cs

/-- Hex digit value. -/
def hexVal (c : Char) : Option Nat :=
  if '0' ≤ c ∧ c ≤ '9' then some (c.toNat - '0'.toNat)
  else if 'a' ≤ c ∧ c ≤ 'f' then some (c.toNat - 'a'.toNat + 10)
  else if 'A' ≤ c ∧ c ≤ 'F' then some (c.toNat - 'A'.toNat + 10)
  else none

/-- Parse the body of a JSON string literal (after the opening quote),
handling the escape sequences of the JSON grammar and rejecting raw
control characters. -/
def pStrAux (acc : List Char) : List Char → Option (String × List Char)
  | [] => none
  | '"' :: r => some (String.mk acc.reverse, r)
  | '\\' :: '"' :: r => pStrAux ('"' :: acc) r
  | '\\' :: '\\' :: r => pStrAux ('\\' :: acc) r
  | '\\' :: '/' :: r => pStrAux ('/' :: acc) r
  | '\\' :: 'b' :: r => pStrAux ('\x08' :: acc) r
  | '\\' :: 'f' :: r => pStrAux ('\x0c' :: acc) r
  | '\\' :: 'n' :: r => pStrAux ('\n' :: acc) r
  | '\\' :: 'r' :: r => pStrAux ('\r' :: acc) r
  | '\\' :: 't' :: r => pStrAux ('\t' :: acc) r
  | '\\' :: 'u' :: h1 :: h2 :: h3 :: h4 :: r =>
    match hexVal h1, hexVal h2, hexVal h3, hexVal h4 with
    | some a, some b, some c, some d =>
      pStrAux (Char.ofNat (((a * 16 + b) * 16 + c) * 16 + d) :: acc) r
    | _, _, _, _ => none
  | '\\' :: _ => none
  | c :: r => if c.toNat < 32 then none else pStrAux (c :: acc) r

/-- Parse an optional JSON fraction part: on `'.'` the digits must be
nonempty; otherwise nothing is consumed. -/
def pFrac : List Char → Option (List Char × List Char)
  | '.' :: r =>
    let p := takeDigits r
    if p.1 = [] then none else some p
  | cs => some ([], cs)

/-- Parse an optional JSON exponent part, returning its signed value. -/
def pExp : List Char → Option (ℤ × List Char)
  | 'e' :: r =>
    (match r with
     | '+' :: t =>
       let p := takeDigits t
       if p.1 = [] then none else some ((digitsToNat p.1 : ℤ), p.2)
     | '-' :: t =>
       let p := takeDigits t
       if p.1 = [] then none else some (-(digitsToNat p.1 : ℤ), p.2)
     | t =>
       let p := takeDigits t
       if p.1 = [] then none else some ((digitsToNat p.1 : ℤ), p.2))
  | 'E' :: r =>
    (match r with
     | '+' :: t =>
       let p := takeDigits t
       if p.1 = [] then none else some ((digitsToNat p.1 : ℤ), p.2)
     | '-' :: t =>
       let p := takeDigits t
       if p.1 = [] then none else some (-(digitsToNat p.1 : ℤ), p.2)
     | t =>
       let p := takeDigits t
       if p.1 = [] then none else some ((digitsToNat p.1 : ℤ), p.2))
  | cs => some (0, cs)

/-- Assemble a scaled decimal from sign, integer digits, fraction digits
and exponent. -/
def mkNum (neg : Bool) (intDs fracDs : List Char) (ex : ℤ) : JsNum :=
  let m0 : ℤ := (digitsToNat (intDs ++ fracDs) : ℤ)
  let m1 : ℤ := if neg then -m0 else m0
  if 0 ≤ ex then ⟨m1 * (10 : ℤ) ^ ex.toNat, fracDs.length⟩
  else ⟨m1, fracDs.length + (-ex).toNat⟩

/-- Parse a JSON number, strictly per the JSON grammar. -/
def pNum (cs : List Char) : Option (JsNum × List Char) :=
  let signSplit : Bool × List Char :=
    match cs with
    | '-' :: r => (true, r)
    | _ => (false, cs)
  match signSplit.2 with
  | [] => none
  | c :: r =>
    if ¬ isDigitC c then none
    else if c = '0' && (match r with | d :: _ => isDigitC d | [] => false) then none
    else
      let intSplit : List Char × List Char :=
        if c = '0' then (['0'], r)
        else
          let p := takeDigits r
          (c :: p.1, p.2)
      match pFrac intSplit.2 with
      | none => none
      | some (fracDs, rest2) =>
        match pExp rest2 with
        | none => none
        | some (ex, rest3) =>
          some (mkNum signSplit.1 intSplit.1 fracDs ex, rest3)

/-- Parser modes: a single value, the remaining elements of an array, or
the remaining members of an object. -/
inductive PMode where
  | val : PMode
  | elems : List Json → PMode
  | fields : List (String × Json) → PMode

/-- The recursive JSON parser, structural on fuel. -/
def pRun : Nat → PMode → List Char → Option (Json × List Char)
  | 0, _, _ => none
  | fuel + 1, PMode.val, cs =>
    (match dropJsonWs cs with
     | 'n' :: 'u' :: 'l' :: 'l' :: r => some (jnull, r)
     | 't' :: 'r' :: 'u' :: 'e' :: r => some (jbool true, r)
     | 'f' :: 'a' :: 'l' :: 's' :: 'e' :: r => some (jbool false, r)
     | '"' :: r => (pStrAux [] r).map fun p => (jstr p.1, p.2)
     | '[' :: r =>
       (match dropJsonWs r with
        | ']' :: r2 => some (jarr [], r2)
        | r2 => pRun fuel (PMode.elems []) r2)
     | '\x7b' :: r =>
       (match dropJsonWs r with
        | '\x7d' :: r2 => some (jobj [], r2)
        | r2 => pRun fuel (PMode.fields []) r2)
     | r => (pNum r).map fun p => (jnum p.1, p.2))
  | fuel + 1, PMode.elems acc, cs =>
    (match pRun fuel PMode.val cs with
     | none => none
     | some (v, rest) =>
       match dropJsonWs rest with
       | ',' :: r => pRun fuel (PMode.elems (v :: acc)) r
       | ']' :: r => some (jarr (v :: acc).reverse, r)
       | _ => none)
  | fuel + 1, PMode.fields acc, cs =>
    (match dropJsonWs cs with
     | '"' :: r =>
       (match pStrAux [] r with
        | none => none
        | some (k, r2) =>
          match dropJsonWs r2 with
          | ':' :: r3 =>
            (match pRun fuel PMode.val r3 with
             | none => none
             | some (v, r4) =>
               match dropJsonWs r4 with
               | ',' :: r5 => pRun fuel (PMode.fields ((k, v) :: acc)) r5
               | '\x7d' :: r5 => some (jobj ((k, v) :: acc).reverse, r5)
               | _ => none)
          | _ => none)
     | _ => none)

/-- `JSON.parse`: strict parse of the whole input, `none` models a thrown
`SyntaxError`. -/
def jsonParse (s : String) : Option Json :=
  match pRun (2 * s.length + 16) PMode.val s.data with
  | some (j, rest) => if dropJsonWs rest = [] then some j else none
  | none => none

/-! ## `parseFloat` after symbol stripping, as used by the OCR handlers -/

/-- Keep only the characters `[0-9.+-]`, modelling
`v.replace(/[^0-9.+-]/g, "")`. -/
def keepNumChars (s : String) : String :=
  String.mk (s.data.filter fun c => isDigitC c || c = '.' || c = '+' || c = '-')

/-- `parseFloat` restricted to its uses in the handlers: the argument has
already been stripped to the alphabet `[0-9.+-]`, so no exponent or
whitespace handling is required.  `none` models `NaN` (which
`Number.isFinite` then rejects). -/
def jsParseFloat (s : String) : Option JsNum :=
  let signSplit : Bool × List Char :=
    match s.data with
    | '+' :: r => (false, r)
    | '-' :: r => (true, r)
    | cs => (false, cs)
  let ip := takeDigits signSplit.2
  let fp : List Char :=
    match ip.2 with
    | '.' :: r => (takeDigits r).1
    | _ => []
  if ip.1 = [] ∧ fp = [] then none
  else
    let m : ℤ := (digitsToNat (ip.1 ++ fp) : ℤ)
    some ⟨if signSplit.1 then -m else m, fp.length⟩

/-! ## The measured-value triple -/

/-- One output field of the OCR measured-value pipeline. -/
structure MeasuredValue where
  value : Option JsNum
  error : Option String
  warning : Option String
deriving DecidableEq, Repr

/-- First-match association-list lookup (JavaScript object field read; the
objects built by the handlers have pairwise-distinct keys). -/
def getField : List (String × Json) → String → Option Json
  | [], _ => none
  | (k, v) :: fs, key => if k = key then some v else getField fs key

/-- Lookup in a measured-value output object. -/
def getMV : List (String × MeasuredValue) → String → Option MeasuredValue
  | [], _ => none
  | (k, v) :: fs, key => if k = key then some v else getMV fs key

/-- Observable key presence of the serialised value (`JSON.stringify`
serialises only an object's own enumerable string keys; properties
assigned onto arrays or primitives are not serialised). -/
def hasKeyB : Json → String → Bool
  | jobj fs, key => (getField fs key).isSome
  | _, _ => false

/-! ## OCR measured-value pipeline, revision `src/unnamed/part_011`
(`netlify/functions/ocr.js`, `{value, error, warning}` variant) -/

namespace OcrP11

/-- The thirteen measured-value keys (`keys` in the source). -/
def keys : List String :=
  ["ph", "pco2", "po2", "hco3", "sodium", "potassium", "chloride",
   "albumin", "lactate", "glucose", "calcium", "hb", "be"]

/-- The fixed physiological bounds table (`bounds` in the source);
scaled decimals, e.g. `⟨5, 1⟩` is `0.5`. -/
def bounds : String → Option (JsNum × JsNum)
  | "ph" => some (⟨6, 0⟩, ⟨8, 0⟩)
  | "pco2" => some (⟨5, 1⟩, ⟨30, 0⟩)
  | "po2" => some (⟨5, 1⟩, ⟨100, 0⟩)
  | "hco3" => some (⟨2, 0⟩, ⟨60, 0⟩)
  | "sodium" => some (⟨80, 0⟩, ⟨200, 0⟩)
  | "potassium" => some (⟨1, 0⟩, ⟨12, 0⟩)
  | "chloride" => some (⟨50, 0⟩, ⟨150, 0⟩)
  | "albumin" => some (⟨10, 0⟩, ⟨70, 0⟩)
  | "lactate" => some (⟨0, 0⟩, ⟨30, 0⟩)
  | "glucose" => some (⟨0, 0⟩, ⟨80, 0⟩)
  | "calcium" => some (⟨2, 1⟩, ⟨5, 0⟩)
  | "hb" => some (⟨30, 0⟩, ⟨250, 0⟩)
  | "be" => some (⟨-50, 0⟩, ⟨50, 0⟩)
  | _ => none

/-- `toNum` from the source: `null`/`undefined` give `null`; numbers pass
through (all scaled decimals are finite); strings are stripped to
`[0-9.+-]` and `parseFloat`-ed; anything else gives `null`. -/
def toNum : Json → Option JsNum
  | Json.jnull => none
  | Json.jnum q => some q
  | Json.jstr s => jsParseFloat (keepNumChars s)
  | _ => none

/-- The per-field output construction of the `out` loop: missing or
unreadable ⇒ error entry; out of range ⇒ error entry; otherwise the value. -/
def mkEntry (k : String) (v : Json) : MeasuredValue :=
  match toNum v with
  | none => ⟨none, some "Value missing or unreadable.", none⟩
  | some num =>
    match bounds k with
    | some (mn, mx) =>
      if JsNum.ltB num mn || JsNum.ltB mx num then
        ⟨none,
         some ("Value " ++ JsNum.render num ++
           " outside physiological range (" ++ JsNum.render mn ++ "–" ++
           JsNum.render mx ++ ")."), none⟩
      else ⟨some num, none, none⟩
    | none => ⟨some num, none, none⟩

/-- Key backfill (`for k of keys: if (!(k in extractedJson)) ... = null`)
composed with the field read of the `out` loop: a missing key reads `null`. -/
def fieldOr (fs : List (String × Json)) (k : String) : Json :=
  (getField fs k).getD Json.jnull

/-- The `out` object after the construction loop. -/
def out (fs : List (String × Json)) : List (String × MeasuredValue) :=
  keys.map fun k => (k, mkEntry k (fieldOr fs k))

/-- The body of `tryCorrect` for the entry at the addressed key. -/
def corrItem (key : String) (lowThresh physMin physMax : JsNum)
    (item : MeasuredValue) : MeasuredValue :=
  match item.value with
  | none => item
  | some v =>
    if JsNum.ltB v lowThresh then
      let corrected := JsNum.toFix3 (JsNum.mul v ⟨75, 1⟩)
      if JsNum.leB physMin corrected && JsNum.leB corrected physMax then
        ⟨some corrected, item.error,
         some ("Auto-corrected " ++ jsToUpper key ++
           " (value looked divided by 7.5; multiplied to restore kPa).")⟩
      else item
    else item

/-- `tryCorrect(key, lowThresh, physMin, physMax)`: update the addressed
entry in place (no-op when the key is absent or its value is `null`). -/
def tryCorrect (key : String) (lowThresh physMin physMax : JsNum)
    (o : List (String × MeasuredValue)) : List (String × MeasuredValue) :=
  o.map fun p =>
    if p.1 = key then (p.1, corrItem key lowThresh physMin physMax p.2) else p

/-- Both auto-correction calls, in source order
(`tryCorrect("pco2", 2.5, 0.5, 30); tryCorrect("po2", 3.0, 0.5, 100)`). -/
def corrections (o : List (String × MeasuredValue)) :
    List (String × MeasuredValue) :=
  tryCorrect "po2" ⟨30, 1⟩ ⟨5, 1⟩ ⟨100, 0⟩
    (tryCorrect "pco2" ⟨25, 1⟩ ⟨5, 1⟩ ⟨30, 0⟩ o)

/-- The whole post-parse pipeline of the handler.  A parsed top-level
array behaves like an empty object (the `in`-backfill assigns properties
that the later reads see as `null`); `in` applied to a primitive throws,
which the handler's `catch` turns into the 500 response. -/
def process (parsed : Json) : Except String (List (String × MeasuredValue)) :=
  match parsed with
  | Json.jobj fs => Except.ok (corrections (out fs))
  | Json.jarr _ => Except.ok (corrections (out []))
  | _ => Except.error "Internal server error"

/-- Fence-strip repair (`rawText.replace(/```json/g, "").replace(/```/g, "")`). -/
def stripFences (s : String) : String :=
  jsReplaceAll (jsReplaceAll s "```json" "") "```" ""

/-- The two-attempt JSON extraction (lines 60–65 of the source): strict
parse, then the fence-strip repair, then failure. -/
def extract (rawText : String) : Option Json :=
  match jsonParse rawText with
  | some j => some j
  | none => jsonParse (stripFences rawText)

/-- Serialise a measured-value triple. -/
def mvJson (mv : MeasuredValue) : Json :=
  Json.jobj
    [("value", (mv.value.map Json.jnum).getD Json.jnull),
     ("error", (mv.error.map Json.jstr).getD Json.jnull),
     ("warning", (mv.warning.map Json.jstr).getD Json.jnull)]

/-- The handler from the trimmed upstream text onward: status code and
serialised body. -/
def respond (rawText : String) : Nat × Json :=
  match extract rawText with
  | none => (500, Json.jobj [("error", Json.jstr "Internal server error")])
  | some parsed =>
    match process parsed with
    | Except.error e => (500, Json.jobj [("error", Json.jstr e)])
    | Except.ok o => (200, Json.jobj (o.map fun p => (p.1, mvJson p.2)))

end OcrP11

/-! ## OCR measured-value pipeline, revision `src/unnamed/part_009`
(`gemini-2.5-flash` variant; same shape, `fixDivide7_5` correction) -/

namespace OcrP09

/-- The thirteen measured-value keys. -/
def keys : List String := OcrP11.keys

/-- The bounds table (identical literals to the `part_011` revision). -/
def bounds : String → Option (JsNum × JsNum) := OcrP11.bounds

/-- `toNum` from `part_009`: as in `part_011` with an additional
`.replace(",", ".")` on the cleaned string (vacuous, since the comma was
already stripped, but retained faithfully). -/
def toNum : Json → Option JsNum
  | Json.jnull => none
  | Json.jnum q => some q
  | Json.jstr s => jsParseFloat (jsReplaceFirst (keepNumChars s) "," ".")
  | _ => none

/-- Per-field output construction (messages identical to `part_011`). -/
def mkEntry (k : String) (v : Json) : MeasuredValue :=
  match toNum v with
  | none => ⟨none, some "Value missing or unreadable.", none⟩
  | some num =>
    match bounds k with
    | some (mn, mx) =>
      if JsNum.ltB num mn || JsNum.ltB mx num then
        ⟨none,
         some ("Value " ++ JsNum.render num ++
           " outside physiological range (" ++ JsNum.render mn ++ "–" ++
           JsNum.render mx ++ ")."), none⟩
      else ⟨some num, none, none⟩
    | none => ⟨some num, none, none⟩

/-- The `out` object after the construction loop. -/
def out (fs : List (String × Json)) : List (String × MeasuredValue) :=
  keys.map fun k => (k, mkEntry k (OcrP11.fieldOr fs k))

/-- The body of `fixDivide7_5` for the addressed entry. -/
def fixItem (key : String) (threshold : JsNum) (physRange : JsNum × JsNum)
    (item : MeasuredValue) : MeasuredValue :=
  match item.value with
  | none => item
  | some v =>
    if JsNum.ltB v threshold then
      let corrected := JsNum.toFix3 (JsNum.mul v ⟨75, 1⟩)
      if JsNum.leB physRange.1 corrected && JsNum.leB corrected physRange.2 then
        ⟨some corrected, item.error,
         some ("Auto-corrected " ++ jsToUpper key ++ " (suspected ÷7.5 error).")⟩
      else item
    else item

/-- `fixDivide7_5(key, threshold, physRange)`. -/
def fixDivide7_5 (key : String) (threshold : JsNum) (physRange : JsNum × JsNum)
    (o : List (String × MeasuredValue)) : List (String × MeasuredValue) :=
  o.map fun p =>
    if p.1 = key then (p.1, fixItem key threshold physRange p.2) else p

/-- Both correction calls, in source order
(`fixDivide7_5("pco2", 2.5, bounds.pco2); fixDivide7_5("po2", 3.0, bounds.po2)`). -/
def corrections (o : List (String × MeasuredValue)) :
    List (String × MeasuredValue) :=
  fixDivide7_5 "po2" ⟨30, 1⟩ (⟨5, 1⟩, ⟨100, 0⟩)
    (fixDivide7_5 "pco2" ⟨25, 1⟩ (⟨5, 1⟩, ⟨30, 0⟩) o)

/-- The whole post-parse pipeline of the `part_009` handler. -/
def process (parsed : Json) : Except String (List (String × MeasuredValue)) :=
  match parsed with
  | Json.jobj fs => Except.ok (corrections (out fs))
  | Json.jarr _ => Except.ok (corrections (out []))
  | _ => Except.error "Internal server error."

end OcrP09

/-! ## Lemmas about the pipeline combinators -/

theorem getMV_map_fn (l : List String) (h : String → MeasuredValue) (key : String) :
    getMV (l.map fun k => (k, h k)) key = if key ∈ l then some (h key) else none := by
  induction l with
  | nil => simp [getMV]
  | cons a as ih =>
    simp only [List.map_cons, getMV]
    by_cases hak : a = key
    · subst hak
      simp
    · have hka : ¬ key = a := fun h2 => hak h2.symm
      simp [hak, ih, hka]

theorem getMV_mapUpd (f : MeasuredValue → MeasuredValue) (key : String)
    (o : List (String × MeasuredValue)) (k : String) :
    getMV (o.map fun p => if p.1 = key then (p.1, f p.2) else p) k =
      (getMV o k).map fun it => if k = key then f it else it := by
  induction o with
  | nil => simp [getMV]
  | cons hd tl ih =>
    obtain ⟨k0, it⟩ := hd
    show getMV ((if k0 = key then (k0, f it) else (k0, it)) ::
        tl.map fun p => if p.1 = key then (p.1, f p.2) else p) k = _
    by_cases h0 : k0 = key
    · rw [if_pos h0]
      by_cases h1 : k0 = k
      · subst h1
        rw [h0]
        simp [getMV]
      · simp only [getMV, if_neg h1, ih]
    · rw [if_neg h0]
      by_cases h1 : k0 = k
      · subst h1
        simp [getMV, h0]
      · simp only [getMV, if_neg h1, ih]

/-- The shared shape of `tryCorrect`'s and `fixDivide7_5`'s per-entry body
(`w` is the revision-specific warning text). -/
def corrGen (t mn mx : JsNum) (w : String) (item : MeasuredValue) : MeasuredValue :=
  match item.value with
  | none => item
  | some v =>
    if JsNum.ltB v t then
      let corrected := JsNum.toFix3 (JsNum.mul v ⟨75, 1⟩)
      if JsNum.leB mn corrected && JsNum.leB corrected mx then
        ⟨some corrected, item.error, some w⟩
      else item
    else item

theorem corrItem_eq_gen (key : String) (t mn mx : JsNum) (it : MeasuredValue) :
    OcrP11.corrItem key t mn mx it =
      corrGen t mn mx
        ("Auto-corrected " ++ jsToUpper key ++
          " (value looked divided by 7.5; multiplied to restore kPa).") it := rfl

theorem fixItem_eq_gen (key : String) (t : JsNum) (pr : JsNum × JsNum)
    (it : MeasuredValue) :
    OcrP09.fixItem key t pr it =
      corrGen t pr.1 pr.2
        ("Auto-corrected " ++ jsToUpper key ++ " (suspected ÷7.5 error).") it := rfl

theorem tryCorrect_getMV (key : String) (t mn mx : JsNum)
    (o : List (String × MeasuredValue)) (k : String) :
    getMV (OcrP11.tryCorrect key t mn mx o) k =
      (getMV o k).map fun it =>
        if k = key then OcrP11.corrItem key t mn mx it else it :=
  getMV_mapUpd _ key o k

theorem fixDivide_getMV (key : String) (t : JsNum) (pr : JsNum × JsNum)
    (o : List (String × MeasuredValue)) (k : String) :
    getMV (OcrP09.fixDivide7_5 key t pr o) k =
      (getMV o k).map fun it =>
        if k = key then OcrP09.fixItem key t pr it else it :=
  getMV_mapUpd _ key o k

/-- A failed range check is exactly membership in the closed interval. -/
theorem rangeCheckB_false_iff (num mn mx : JsNum) :
    (JsNum.ltB num mn || JsNum.ltB mx num) = false ↔
      (mn.toRat ≤ num.toRat ∧ num.toRat ≤ mx.toRat) := by
  simp only [Bool.or_eq_false_iff]
  constructor
  · rintro ⟨h1, h2⟩
    constructor
    · have := (not_iff_not.mpr (JsNum.ltB_iff num mn)).mp (by simp [h1])
      exact le_of_not_lt this
    · have := (not_iff_not.mpr (JsNum.ltB_iff mx num)).mp (by simp [h2])
      exact le_of_not_lt this
  · rintro ⟨h1, h2⟩
    constructor
    · have : ¬ (JsNum.ltB num mn = true) :=
        fun hc => absurd ((JsNum.ltB_iff num mn).mp hc) (not_lt.mpr h1)
      simpa using this
    · have : ¬ (JsNum.ltB mx num = true) :=
        fun hc => absurd ((JsNum.ltB_iff mx num).mp hc) (not_lt.mpr h2)
      simpa using this

theorem corrGen_none (t mn mx : JsNum) (w : String) (it : MeasuredValue)
    (h : it.value = none) : corrGen t mn mx w it = it := by
  unfold corrGen
  rw [h]

theorem corrGen_error (t mn mx : JsNum) (w : String) (it : MeasuredValue) :
    (corrGen t mn mx w it).error = it.error := by
  unfold corrGen
  rcases it with ⟨v, er, wa⟩
  cases v with
  | none => rfl
  | some v0 =>
    simp only []
    split
    · split
      · rfl
      · rfl
    · rfl

theorem corrGen_bounds (t mn mx : JsNum) (w : String) (it : MeasuredValue)
    (h : ∀ v, it.value = some v → mn.toRat ≤ v.toRat ∧ v.toRat ≤ mx.toRat) :
    ∀ v, (corrGen t mn mx w it).value = some v →
      mn.toRat ≤ v.toRat ∧ v.toRat ≤ mx.toRat := by
  intro v hv
  rcases it with ⟨v1, er, wa⟩
  cases v1 with
  | none => exact h v hv
  | some v0 =>
    unfold corrGen at hv
    simp only [] at hv
    by_cases hlt : JsNum.ltB v0 t = true
    · rw [if_pos hlt] at hv
      by_cases hg : (JsNum.leB mn (JsNum.toFix3 (JsNum.mul v0 ⟨75, 1⟩)) &&
          JsNum.leB (JsNum.toFix3 (JsNum.mul v0 ⟨75, 1⟩)) mx) = true
      · rw [if_pos hg] at hv
        simp only [Option.some.injEq] at hv
        subst hv
        rcases Bool.and_eq_true_iff.mp hg with ⟨hg1, hg2⟩
        exact ⟨(JsNum.leB_iff _ _).mp hg1, (JsNum.leB_iff _ _).mp hg2⟩
      · rw [if_neg hg] at hv
        exact h v hv
    · rw [if_neg hlt] at hv
      exact h v hv

theorem corrGen_not_below (t mn mx : JsNum) (w : String) (it : MeasuredValue)
    (v0 : JsNum) (hv : it.value = some v0) (h : ¬ v0.toRat < t.toRat) :
    corrGen t mn mx w it = it := by
  rcases it with ⟨v1, er, wa⟩
  simp only [] at hv
  subst hv
  unfold corrGen
  simp only []
  rw [if_neg fun hc => absurd ((JsNum.ltB_iff v0 t).mp hc) h]

theorem corrGen_changed (t mn mx : JsNum) (w : String) (it : MeasuredValue)
    (h : (corrGen t mn mx w it).value ≠ it.value) :
    (corrGen t mn mx w it).warning = some w := by
  rcases it with ⟨v1, er, wa⟩
  cases v1 with
  | none => exact absurd (by rw [corrGen_none _ _ _ _ _ rfl]) h
  | some v0 =>
    unfold corrGen at h ⊢
    simp only [] at h ⊢
    by_cases hlt : JsNum.ltB v0 t = true
    · rw [if_pos hlt] at h ⊢
      by_cases hg : (JsNum.leB mn (JsNum.toFix3 (JsNum.mul v0 ⟨75, 1⟩)) &&
          JsNum.leB (JsNum.toFix3 (JsNum.mul v0 ⟨75, 1⟩)) mx) = true
      · rw [if_pos hg]
      · rw [if_neg hg] at h
        exact absurd rfl h
    · rw [if_neg hlt] at h
      exact absurd rfl h

theorem corrGen_err_val (t mn mx : JsNum) (w : String) (it : MeasuredValue)
    (h : it.error ≠ none → it.value = none) :
    (corrGen t mn mx w it).error ≠ none → (corrGen t mn mx w it).value = none := by
  rcases it with ⟨v1, er, wa⟩
  cases v1 with
  | none =>
    rw [corrGen_none _ _ _ _ _ rfl]
    exact h
  | some v0 =>
    intro her
    rw [corrGen_error] at her
    have := h her
    simp at this

theorem mkEntry11_bounds (k : String) (v : Json) (num : JsNum)
    (hval : (OcrP11.mkEntry k v).value = some num) (mn mx : JsNum)
    (hb : OcrP11.bounds k = some (mn, mx)) :
    mn.toRat ≤ num.toRat ∧ num.toRat ≤ mx.toRat := by
  cases h1 : OcrP11.toNum v with
  | none => simp [OcrP11.mkEntry, h1] at hval
  | some n =>
    simp only [OcrP11.mkEntry, h1, hb] at hval
    by_cases hc : (JsNum.ltB n mn || JsNum.ltB mx n) = true
    · simp [hc] at hval
    · simp only [Bool.not_eq_true] at hc
      simp only [hc, Bool.false_eq_true, if_false, Option.some.injEq] at hval
      subst hval
      exact (rangeCheckB_false_iff _ mn mx).mp hc

theorem mkEntry11_err_val (k : String) (v : Json)
    (h : (OcrP11.mkEntry k v).error ≠ none) : (OcrP11.mkEntry k v).value = none := by
  cases h1 : OcrP11.toNum v with
  | none => simp [OcrP11.mkEntry, h1]
  | some n =>
    cases hb : OcrP11.bounds k with
    | none => simp [OcrP11.mkEntry, h1, hb] at h
    | some p =>
      obtain ⟨mn, mx⟩ := p
      by_cases hc : (JsNum.ltB n mn || JsNum.ltB mx n) = true
      · simp [OcrP11.mkEntry, h1, hb, hc]
      · simp [OcrP11.mkEntry, h1, hb, hc] at h

theorem mkEntry11_warning_none (k : String) (v : Json) :
    (OcrP11.mkEntry k v).warning = none := by
  cases h1 : OcrP11.toNum v with
  | none => simp [OcrP11.mkEntry, h1]
  | some n =>
    cases hb : OcrP11.bounds k with
    | none => simp [OcrP11.mkEntry, h1, hb]
    | some p =>
      obtain ⟨mn, mx⟩ := p
      by_cases hc : (JsNum.ltB n mn || JsNum.ltB mx n) = true
      · simp [OcrP11.mkEntry, h1, hb, hc]
      · simp [OcrP11.mkEntry, h1, hb, hc]

theorem mkEntry11_out_of_range (k : String) (v : Json) (num : JsNum)
    (h1 : OcrP11.toNum v = some num) (mn mx : JsNum)
    (hb : OcrP11.bounds k = some (mn, mx))
    (hout : num.toRat < mn.toRat ∨ mx.toRat < num.toRat) :
    (OcrP11.mkEntry k v).value = none ∧ (OcrP11.mkEntry k v).error ≠ none ∧
      (OcrP11.mkEntry k v).warning = none := by
  have hc : (JsNum.ltB num mn || JsNum.ltB mx num) = true := by
    rcases hout with h | h
    · exact Bool.or_eq_true_iff.mpr (Or.inl ((JsNum.ltB_iff _ _).mpr h))
    · exact Bool.or_eq_true_iff.mpr (Or.inr ((JsNum.ltB_iff _ _).mpr h))
  simp [OcrP11.mkEntry, h1, hb, hc]

theorem mkEntry11_in_range (k : String) (v : Json) (num : JsNum)
    (h1 : OcrP11.toNum v = some num) (mn mx : JsNum)
    (hb : OcrP11.bounds k = some (mn, mx))
    (hin : mn.toRat ≤ num.toRat ∧ num.toRat ≤ mx.toRat) :
    OcrP11.mkEntry k v = ⟨some num, none, none⟩ := by
  have hc : (JsNum.ltB num mn || JsNum.ltB mx num) = false :=
    (rangeCheckB_false_iff num mn mx).mpr hin
  simp [OcrP11.mkEntry, h1, hb, hc]

theorem mkEntry09_bounds (k : String) (v : Json) (num : JsNum)
    (hval : (OcrP09.mkEntry k v).value = some num) (mn mx : JsNum)
    (hb : OcrP09.bounds k = some (mn, mx)) :
    mn.toRat ≤ num.toRat ∧ num.toRat ≤ mx.toRat := by
  cases h1 : OcrP09.toNum v with
  | none => simp [OcrP09.mkEntry, h1] at hval
  | some n =>
    simp only [OcrP09.mkEntry, h1, hb] at hval
    by_cases hc : (JsNum.ltB n mn || JsNum.ltB mx n) = true
    · simp [hc] at hval
    · simp only [Bool.not_eq_true] at hc
      simp only [hc, Bool.false_eq_true, if_false, Option.some.injEq] at hval
      subst hval
      exact (rangeCheckB_false_iff _ mn mx).mp hc

theorem mkEntry09_err_val (k : String) (v : Json)
    (h : (OcrP09.mkEntry k v).error ≠ none) : (OcrP09.mkEntry k v).value = none := by
  cases h1 : OcrP09.toNum v with
  | none => simp [OcrP09.mkEntry, h1]
  | some n =>
    cases hb : OcrP09.bounds k with
    | none => simp [OcrP09.mkEntry, h1, hb] at h
    | some p =>
      obtain ⟨mn, mx⟩ := p
      by_cases hc : (JsNum.ltB n mn || JsNum.ltB mx n) = true
      · simp [OcrP09.mkEntry, h1, hb, hc]
      · simp [OcrP09.mkEntry, h1, hb, hc] at h

theorem mkEntry09_out_of_range (k : String) (v : Json) (num : JsNum)
    (h1 : OcrP09.toNum v = some num) (mn mx : JsNum)
    (hb : OcrP09.bounds k = some (mn, mx))
    (hout : num.toRat < mn.toRat ∨ mx.toRat < num.toRat) :
    (OcrP09.mkEntry k v).value = none ∧ (OcrP09.mkEntry k v).error ≠ none ∧
      (OcrP09.mkEntry k v).warning = none := by
  have hc : (JsNum.ltB num mn || JsNum.ltB mx num) = true := by
    rcases hout with h | h
    · exact Bool.or_eq_true_iff.mpr (Or.inl ((JsNum.ltB_iff _ _).mpr h))
    · exact Bool.or_eq_true_iff.mpr (Or.inr ((JsNum.ltB_iff _ _).mpr h))
  simp [OcrP09.mkEntry, h1, hb, hc]

theorem mkEntry09_in_range (k : String) (v : Json) (num : JsNum)
    (h1 : OcrP09.toNum v = some num) (mn mx : JsNum)
    (hb : OcrP09.bounds k = some (mn, mx))
    (hin : mn.toRat ≤ num.toRat ∧ num.toRat ≤ mx.toRat) :
    OcrP09.mkEntry k v = ⟨some num, none, none⟩ := by
  have hc : (JsNum.ltB num mn || JsNum.ltB mx num) = false :=
    (rangeCheckB_false_iff num mn mx).mpr hin
  simp [OcrP09.mkEntry, h1, hb, hc]

/-- Closed form of the `part_011` correction pass at one key. -/
def corrAt11 (k : String) (it : MeasuredValue) : MeasuredValue :=
  if k = "pco2" then OcrP11.corrItem "pco2" ⟨25, 1⟩ ⟨5, 1⟩ ⟨30, 0⟩ it
  else if k = "po2" then OcrP11.corrItem "po2" ⟨30, 1⟩ ⟨5, 1⟩ ⟨100, 0⟩ it
  else it

/-- Closed form of the `part_009` correction pass at one key. -/
def corrAt09 (k : String) (it : MeasuredValue) : MeasuredValue :=
  if k = "pco2" then OcrP09.fixItem "pco2" ⟨25, 1⟩ (⟨5, 1⟩, ⟨30, 0⟩) it
  else if k = "po2" then OcrP09.fixItem "po2" ⟨30, 1⟩ (⟨5, 1⟩, ⟨100, 0⟩) it
  else it

theorem getMV_corrections11 (o : List (String × MeasuredValue)) (k : String) :
    getMV (OcrP11.corrections o) k = (getMV o k).map (corrAt11 k) := by
  unfold OcrP11.corrections
  rw [show OcrP11.tryCorrect "po2" ⟨30, 1⟩ ⟨5, 1⟩ ⟨100, 0⟩
      (OcrP11.tryCorrect "pco2" ⟨25, 1⟩ ⟨5, 1⟩ ⟨30, 0⟩ o) =
      (OcrP11.tryCorrect "pco2" ⟨25, 1⟩ ⟨5, 1⟩ ⟨30, 0⟩ o).map
        (fun p => if p.1 = "po2" then
          (p.1, OcrP11.corrItem "po2" ⟨30, 1⟩ ⟨5, 1⟩ ⟨100, 0⟩ p.2) else p) from rfl]
  rw [getMV_mapUpd, tryCorrect_getMV, Option.map_map]
  cases hg : getMV o k with
  | none => rfl
  | some it =>
    by_cases h2 : k = "pco2"
    · have h3 : ¬ k = "po2" := by rw [h2]; decide
      simp [corrAt11, h2, h3, Function.comp]
    · by_cases h3 : k = "po2"
      · simp [corrAt11, h2, h3, Function.comp]
      · simp [corrAt11, h2, h3, Function.comp]

theorem getMV_corrections09 (o : List (String × MeasuredValue)) (k : String) :
    getMV (OcrP09.corrections o) k = (getMV o k).map (corrAt09 k) := by
  unfold OcrP09.corrections
  rw [show OcrP09.fixDivide7_5 "po2" ⟨30, 1⟩ (⟨5, 1⟩, ⟨100, 0⟩)
      (OcrP09.fixDivide7_5 "pco2" ⟨25, 1⟩ (⟨5, 1⟩, ⟨30, 0⟩) o) =
      (OcrP09.fixDivide7_5 "pco2" ⟨25, 1⟩ (⟨5, 1⟩, ⟨30, 0⟩) o).map
        (fun p => if p.1 = "po2" then
          (p.1, OcrP09.fixItem "po2" ⟨30, 1⟩ (⟨5, 1⟩, ⟨100, 0⟩) p.2) else p) from rfl]
  rw [getMV_mapUpd, fixDivide_getMV, Option.map_map]
  cases hg : getMV o k with
  | none => rfl
  | some it =>
    by_cases h2 : k = "pco2"
    · have h3 : ¬ k = "po2" := by rw [h2]; decide
      simp [corrAt09, h2, h3, Function.comp]
    · by_cases h3 : k = "po2"
      · simp [corrAt09, h2, h3, Function.comp]
      · simp [corrAt09, h2, h3, Function.comp]

theorem corrAt11_none (k : String) (it : MeasuredValue) (h : it.value = none) :
    corrAt11 k it = it := by
  unfold corrAt11
  by_cases h2 : k = "pco2"
  · rw [if_pos h2, corrItem_eq_gen, corrGen_none _ _ _ _ _ h]
  · rw [if_neg h2]
    by_cases h3 : k = "po2"
    · rw [if_pos h3, corrItem_eq_gen, corrGen_none _ _ _ _ _ h]
    · rw [if_neg h3]

theorem corrAt09_none (k : String) (it : MeasuredValue) (h : it.value = none) :
    corrAt09 k it = it := by
  unfold corrAt09
  by_cases h2 : k = "pco2"
  · rw [if_pos h2, fixItem_eq_gen, corrGen_none _ _ _ _ _ h]
  · rw [if_neg h2]
    by_cases h3 : k = "po2"
    · rw [if_pos h3, fixItem_eq_gen, corrGen_none _ _ _ _ _ h]
    · rw [if_neg h3]

theorem corrAt11_other (k : String) (it : MeasuredValue)
    (h2 : k ≠ "pco2") (h3 : k ≠ "po2") : corrAt11 k it = it := by
  unfold corrAt11
  rw [if_neg h2, if_neg h3]

theorem corrAt09_other (k : String) (it : MeasuredValue)
    (h2 : k ≠ "pco2") (h3 : k ≠ "po2") : corrAt09 k it = it := by
  unfold corrAt09
  rw [if_neg h2, if_neg h3]

theorem corrAt11_error (k : String) (it : MeasuredValue) :
    (corrAt11 k it).error = it.error := by
  unfold corrAt11
  by_cases h2 : k = "pco2"
  · rw [if_pos h2, corrItem_eq_gen, corrGen_error]
  · rw [if_neg h2]
    by_cases h3 : k = "po2"
    · rw [if_pos h3, corrItem_eq_gen, corrGen_error]
    · rw [if_neg h3]

theorem corrAt09_error (k : String) (it : MeasuredValue) :
    (corrAt09 k it).error = it.error := by
  unfold corrAt09
  by_cases h2 : k = "pco2"
  · rw [if_pos h2, fixItem_eq_gen, corrGen_error]
  · rw [if_neg h2]
    by_cases h3 : k = "po2"
    · rw [if_pos h3, fixItem_eq_gen, corrGen_error]
    · rw [if_neg h3]

theorem corrAt11_err_val (k : String) (it : MeasuredValue)
    (h : it.error ≠ none → it.value = none) :
    (corrAt11 k it).error ≠ none → (corrAt11 k it).value = none := by
  unfold corrAt11
  by_cases h2 : k = "pco2"
  · rw [if_pos h2, corrItem_eq_gen]
    exact corrGen_err_val _ _ _ _ _ h
  · rw [if_neg h2]
    by_cases h3 : k = "po2"
    · rw [if_pos h3, corrItem_eq_gen]
      exact corrGen_err_val _ _ _ _ _ h
    · rw [if_neg h3]
      exact h

theorem corrAt09_err_val (k : String) (it : MeasuredValue)
    (h : it.error ≠ none → it.value = none) :
    (corrAt09 k it).error ≠ none → (corrAt09 k it).value = none := by
  unfold corrAt09
  by_cases h2 : k = "pco2"
  · rw [if_pos h2, fixItem_eq_gen]
    exact corrGen_err_val _ _ _ _ _ h
  · rw [if_neg h2]
    by_cases h3 : k = "po2"
    · rw [if_pos h3, fixItem_eq_gen]
      exact corrGen_err_val _ _ _ _ _ h
    · rw [if_neg h3]
      exact h

theorem corrAt11_bounds (k : String) (it : MeasuredValue) (mn mx : JsNum)
    (hb : OcrP11.bounds k = some (mn, mx))
    (h : ∀ v, it.value = some v → mn.toRat ≤ v.toRat ∧ v.toRat ≤ mx.toRat) :
    ∀ v, (corrAt11 k it).value = some v →
      mn.toRat ≤ v.toRat ∧ v.toRat ≤ mx.toRat := by
  unfold corrAt11
  by_cases h2 : k = "pco2"
  · subst h2
    rw [show OcrP11.bounds "pco2" = some (⟨5, 1⟩, ⟨30, 0⟩) from rfl] at hb
    injection hb with hb1
    rw [Prod.mk.injEq] at hb1
    obtain ⟨hmn, hmx⟩ := hb1
    subst hmn
    subst hmx
    rw [if_pos rfl, corrItem_eq_gen]
    exact corrGen_bounds _ _ _ _ _ h
  · rw [if_neg h2]
    by_cases h3 : k = "po2"
    · subst h3
      rw [show OcrP11.bounds "po2" = some (⟨5, 1⟩, ⟨100, 0⟩) from rfl] at hb
      injection hb with hb1
      rw [Prod.mk.injEq] at hb1
      obtain ⟨hmn, hmx⟩ := hb1
      subst hmn
      subst hmx
      rw [if_pos rfl, corrItem_eq_gen]
      exact corrGen_bounds _ _ _ _ _ h
    · rw [if_neg h3]
      exact h

theorem corrAt09_bounds (k : String) (it : MeasuredValue) (mn mx : JsNum)
    (hb : OcrP09.bounds k = some (mn, mx))
    (h : ∀ v, it.value = some v → mn.toRat ≤ v.toRat ∧ v.toRat ≤ mx.toRat) :
    ∀ v, (corrAt09 k it).value = some v →
      mn.toRat ≤ v.toRat ∧ v.toRat ≤ mx.toRat := by
  unfold corrAt09
  by_cases h2 : k = "pco2"
  · subst h2
    rw [show OcrP09.bounds "pco2" = some (⟨5, 1⟩, ⟨30, 0⟩) from rfl] at hb
    injection hb with hb1
    rw [Prod.mk.injEq] at hb1
    obtain ⟨hmn, hmx⟩ := hb1
    subst hmn
    subst hmx
    rw [if_pos rfl, fixItem_eq_gen]
    exact corrGen_bounds _ _ _ _ _ h
  · rw [if_neg h2]
    by_cases h3 : k = "po2"
    · subst h3
      rw [show OcrP09.bounds "po2" = some (⟨5, 1⟩, ⟨100, 0⟩) from rfl] at hb
      injection hb with hb1
      rw [Prod.mk.injEq] at hb1
      obtain ⟨hmn, hmx⟩ := hb1
      subst hmn
      subst hmx
      rw [if_pos rfl, fixItem_eq_gen]
      exact corrGen_bounds _ _ _ _ _ h
    · rw [if_neg h3]
      exact h

theorem corrAt11_changed (k : String) (it : MeasuredValue)
    (h : (corrAt11 k it).value ≠ it.value) : (corrAt11 k it).warning ≠ none := by
  unfold corrAt11 at h ⊢
  by_cases h2 : k = "pco2"
  · rw [if_pos h2, corrItem_eq_gen] at h ⊢
    rw [corrGen_changed _ _ _ _ _ h]
    exact Option.some_ne_none _
  · rw [if_neg h2] at h ⊢
    by_cases h3 : k = "po2"
    · rw [if_pos h3, corrItem_eq_gen] at h ⊢
      rw [corrGen_changed _ _ _ _ _ h]
      exact Option.some_ne_none _
    · rw [if_neg h3] at h
      exact absurd rfl h

theorem corrAt09_changed (k : String) (it : MeasuredValue)
    (h : (corrAt09 k it).value ≠ it.value) : (corrAt09 k it).warning ≠ none := by
  unfold corrAt09 at h ⊢
  by_cases h2 : k = "pco2"
  · rw [if_pos h2, fixItem_eq_gen] at h ⊢
    rw [corrGen_changed _ _ _ _ _ h]
    exact Option.some_ne_none _
  · rw [if_neg h2] at h ⊢
    by_cases h3 : k = "po2"
    · rw [if_pos h3, fixItem_eq_gen] at h ⊢
      rw [corrGen_changed _ _ _ _ _ h]
      exact Option.some_ne_none _
    · rw [if_neg h3] at h
      exact absurd rfl h

theorem process11_ok (parsed : Json) (o : List (String × MeasuredValue))
    (hp : OcrP11.process parsed = Except.ok o) :
    ∃ fs, o = OcrP11.corrections (OcrP11.out fs) := by
  cases parsed with
  | jobj fs =>
    refine ⟨fs, ?_⟩
    simp [OcrP11.process] at hp
    exact hp.symm
  | jarr l =>
    refine ⟨[], ?_⟩
    simp [OcrP11.process] at hp
    exact hp.symm
  | jnull => simp [OcrP11.process] at hp
  | jbool b => simp [OcrP11.process] at hp
  | jnum q => simp [OcrP11.process] at hp
  | jstr s => simp [OcrP11.process] at hp

theorem process09_ok (parsed : Json) (o : List (String × MeasuredValue))
    (hp : OcrP09.process parsed = Except.ok o) :
    ∃ fs, o = OcrP09.corrections (OcrP09.out fs) := by
  cases parsed with
  | jobj fs =>
    refine ⟨fs, ?_⟩
    simp [OcrP09.process] at hp
    exact hp.symm
  | jarr l =>
    refine ⟨[], ?_⟩
    simp [OcrP09.process] at hp
    exact hp.symm
  | jnull => simp [OcrP09.process] at hp
  | jbool b => simp [OcrP09.process] at hp
  | jnum q => simp [OcrP09.process] at hp
  | jstr s => simp [OcrP09.process] at hp

theorem getMV_out11 (fs : List (String × Json)) (k : String) :
    getMV (OcrP11.out fs) k =
      if k ∈ OcrP11.keys then some (OcrP11.mkEntry k (OcrP11.fieldOr fs k))
      else none :=
  getMV_map_fn OcrP11.keys _ k

theorem getMV_out09 (fs : List (String × Json)) (k : String) :
    getMV (OcrP09.out fs) k =
      if k ∈ OcrP09.keys then some (OcrP09.mkEntry k (OcrP11.fieldOr fs k))
      else none :=
  getMV_map_fn OcrP09.keys _ k

/-- Claim C1: in both OCR measured-value revisions, the pipeline never
emits a field whose `value` is a non-null number outside that field's
bounds-table entry (even after the ×7.5 auto-correction step), and any
parsed number outside its bounds is emitted with `value: null` and a
non-null `error`. -/
theorem C1_range_enforcement :
    (∀ parsed o k mv num mn mx,
        OcrP11.process parsed = Except.ok o →
        getMV o k = some mv → mv.value = some num →
        OcrP11.bounds k = some (mn, mx) →
        mn.toRat ≤ num.toRat ∧ num.toRat ≤ mx.toRat) ∧
    (∀ fs k num mn mx mv,
        OcrP11.toNum (OcrP11.fieldOr fs k) = some num →
        OcrP11.bounds k = some (mn, mx) →
        (num.toRat < mn.toRat ∨ mx.toRat < num.toRat) →
        getMV (OcrP11.corrections (OcrP11.out fs)) k = some mv →
        mv.value = none ∧ mv.error ≠ none) ∧
    (∀ parsed o k mv num mn mx,
        OcrP09.process parsed = Except.ok o →
        getMV o k = some mv → mv.value = some num →
        OcrP09.bounds k = some (mn, mx) →
        mn.toRat ≤ num.toRat ∧ num.toRat ≤ mx.toRat) ∧
    (∀ fs k num mn mx mv,
        OcrP09.toNum (OcrP11.fieldOr fs k) = some num →
        OcrP09.bounds k = some (mn, mx) →
        (num.toRat < mn.toRat ∨ mx.toRat < num.toRat) →
        getMV (OcrP09.corrections (OcrP09.out fs)) k = some mv →
        mv.value = none ∧ mv.error ≠ none) := by
  refine ⟨?_, ?_, ?_, ?_⟩
  · intro parsed o k mv num mn mx hp hg hv hb
    obtain ⟨fs, rfl⟩ := process11_ok parsed o hp
    rw [getMV_corrections11, getMV_out11] at hg
    by_cases hk : k ∈ OcrP11.keys
    · rw [if_pos hk] at hg
      simp only [Option.map_some', Option.some.injEq] at hg
      subst hg
      exact corrAt11_bounds k _ mn mx hb
        (fun v hv0 => mkEntry11_bounds k _ v hv0 mn mx hb) num hv
    · rw [if_neg hk] at hg
      exact Option.noConfusion hg
  · intro fs k num mn mx mv ht hb hout hg
    rw [getMV_corrections11, getMV_out11] at hg
    by_cases hk : k ∈ OcrP11.keys
    · rw [if_pos hk] at hg
      simp only [Option.map_some', Option.some.injEq] at hg
      have hmk := mkEntry11_out_of_range k (OcrP11.fieldOr fs k) num ht mn mx hb hout
      rw [corrAt11_none k _ hmk.1] at hg
      subst hg
      exact ⟨hmk.1, hmk.2.1⟩
    · rw [if_neg hk] at hg
      exact Option.noConfusion hg
  · intro parsed o k mv num mn mx hp hg hv hb
    obtain ⟨fs, rfl⟩ := process09_ok parsed o hp
    rw [getMV_corrections09, getMV_out09] at hg
    by_cases hk : k ∈ OcrP09.keys
    · rw [if_pos hk] at hg
      simp only [Option.map_some', Option.some.injEq] at hg
      subst hg
      exact corrAt09_bounds k _ mn mx hb
        (fun v hv0 => mkEntry09_bounds k _ v hv0 mn mx hb) num hv
    · rw [if_neg hk] at hg
      exact Option.noConfusion hg
  · intro fs k num mn mx mv ht hb hout hg
    rw [getMV_corrections09, getMV_out09] at hg
    by_cases hk : k ∈ OcrP09.keys
    · rw [if_pos hk] at hg
      simp only [Option.map_some', Option.some.injEq] at hg
      have hmk := mkEntry09_out_of_range k (OcrP11.fieldOr fs k) num ht mn mx hb hout
      rw [corrAt09_none k _ hmk.1] at hg
      subst hg
      exact ⟨hmk.1, hmk.2.1⟩
    · rw [if_neg hk] at hg
      exact Option.noConfusion hg

/-- Witness for C1: a concrete in-range pH of 7.4 is within `[6, 8]`, and a
concrete out-of-range pCO2 of 50 kPa is nulled with a non-null error. -/
theorem C1_range_enforcement_witness :
    ((⟨6, 0⟩ : JsNum).toRat ≤ (⟨74, 1⟩ : JsNum).toRat ∧
      (⟨74, 1⟩ : JsNum).toRat ≤ (⟨8, 0⟩ : JsNum).toRat) ∧
    ((⟨(none : Option JsNum), some "Value 50 outside physiological range (0.5–30).",
        (none : Option String)⟩ : MeasuredValue).value = none ∧
      (⟨(none : Option JsNum), some "Value 50 outside physiological range (0.5–30).",
        (none : Option String)⟩ : MeasuredValue).error ≠ none) := by
  constructor
  · exact C1_range_enforcement.1 (Json.jobj [("ph", Json.jnum ⟨74, 1⟩)])
      ((OcrP11.process (Json.jobj [("ph", Json.jnum ⟨74, 1⟩)])).toOption.getD [])
      "ph" ⟨some ⟨74, 1⟩, none, none⟩ ⟨74, 1⟩ ⟨6, 0⟩ ⟨8, 0⟩ rfl (by decide) rfl rfl
  · exact C1_range_enforcement.2.1 [("pco2", Json.jnum ⟨50, 0⟩)] "pco2"
      ⟨50, 0⟩ ⟨5, 1⟩ ⟨30, 0⟩
      ⟨none, some "Value 50 outside physiological range (0.5–30).", none⟩
      rfl rfl (by right; norm_num [JsNum.toRat]) (by decide)

/-- Claim C7: every measured-value triple emitted by the OCR pipeline
satisfies: a non-null `error` forces a null `value`; and a non-null
`warning` can co-exist with a non-null `value` (exhibited by the
auto-corrected pCO2 entry), in both revisions. -/
theorem C7_error_value_invariant :
    (∀ parsed o k mv, OcrP11.process parsed = Except.ok o → getMV o k = some mv →
        mv.error ≠ none → mv.value = none) ∧
    getMV ((OcrP11.process (Json.jobj [("pco2", Json.jnum ⟨1, 0⟩)])).toOption.getD [])
        "pco2" =
      some ⟨some ⟨7500, 3⟩, none,
        some "Auto-corrected PCO2 (value looked divided by 7.5; multiplied to restore kPa)."⟩ ∧
    (∀ parsed o k mv, OcrP09.process parsed = Except.ok o → getMV o k = some mv →
        mv.error ≠ none → mv.value = none) ∧
    getMV ((OcrP09.process (Json.jobj [("pco2", Json.jnum ⟨1, 0⟩)])).toOption.getD [])
        "pco2" =
      some ⟨some ⟨7500, 3⟩, none, some "Auto-corrected PCO2 (suspected ÷7.5 error)."⟩ := by
  refine ⟨?_, by decide, ?_, by decide⟩
  · intro parsed o k mv hp hg herr
    obtain ⟨fs, rfl⟩ := process11_ok parsed o hp
    rw [getMV_corrections11, getMV_out11] at hg
    by_cases hk : k ∈ OcrP11.keys
    · rw [if_pos hk] at hg
      simp only [Option.map_some', Option.some.injEq] at hg
      subst hg
      exact corrAt11_err_val k _ (mkEntry11_err_val k _) herr
    · rw [if_neg hk] at hg
      exact Option.noConfusion hg
  · intro parsed o k mv hp hg herr
    obtain ⟨fs, rfl⟩ := process09_ok parsed o hp
    rw [getMV_corrections09, getMV_out09] at hg
    by_cases hk : k ∈ OcrP09.keys
    · rw [if_pos hk] at hg
      simp only [Option.map_some', Option.some.injEq] at hg
      subst hg
      exact corrAt09_err_val k _ (mkEntry09_err_val k _) herr
    · rw [if_neg hk] at hg
      exact Option.noConfusion hg

/-- Witness for C7: the concrete out-of-range pCO2 entry (error non-null)
indeed has a null value. -/
theorem C7_error_value_invariant_witness :
    (⟨(none : Option JsNum), some "Value 50 outside physiological range (0.5–30).",
      (none : Option String)⟩ : MeasuredValue).value = none :=
  C7_error_value_invariant.1 (Json.jobj [("pco2", Json.jnum ⟨50, 0⟩)])
    ((OcrP11.process (Json.jobj [("pco2", Json.jnum ⟨50, 0⟩)])).toOption.getD [])
    "pco2" ⟨none, some "Value 50 outside physiological range (0.5–30).", none⟩
    rfl (by decide) (by decide)

/-- Claim C10 (frame property of the ×7.5 auto-correction step): the
correction pass modifies only the `pco2` and `po2` entries and only when
their `value` is non-null; every other entry, and any entry whose value was
already nulled by validation, is left exactly unchanged — in both
revisions. -/
theorem C10_correction_frame :
    (∀ o k, k ≠ "pco2" → k ≠ "po2" → getMV (OcrP11.corrections o) k = getMV o k) ∧
    (∀ o k mv, getMV o k = some mv → mv.value = none →
        getMV (OcrP11.corrections o) k = some mv) ∧
    (∀ o k, k ≠ "pco2" → k ≠ "po2" → getMV (OcrP09.corrections o) k = getMV o k) ∧
    (∀ o k mv, getMV o k = some mv → mv.value = none →
        getMV (OcrP09.corrections o) k = some mv) := by
  refine ⟨?_, ?_, ?_, ?_⟩
  · intro o k h2 h3
    rw [getMV_corrections11]
    cases hg : getMV o k with
    | none => rfl
    | some it => rw [Option.map_some', corrAt11_other k it h2 h3]
  · intro o k mv hg hv
    rw [getMV_corrections11, hg, Option.map_some', corrAt11_none k mv hv]
  · intro o k h2 h3
    rw [getMV_corrections09]
    cases hg : getMV o k with
    | none => rfl
    | some it => rw [Option.map_some', corrAt09_other k it h2 h3]
  · intro o k mv hg hv
    rw [getMV_corrections09, hg, Option.map_some', corrAt09_none k mv hv]

/-- Witness for C10: the `ph` entry of a concrete output is untouched by
the correction pass. -/
theorem C10_correction_frame_witness :
    getMV (OcrP11.corrections [("ph", ⟨some ⟨74, 1⟩, none, none⟩)]) "ph" =
      getMV [("ph", (⟨some ⟨74, 1⟩, none, none⟩ : MeasuredValue))] "ph" :=
  C10_correction_frame.1 [("ph", ⟨some ⟨74, 1⟩, none, none⟩)] "ph"
    (by decide) (by decide)

/-- Claim C3 (amended): for the pCO2 field in both OCR revisions: a raw
value of 1.0 kPa is replaced by its ×7.5 product 7.5 and flagged with a
non-null warning; an out-of-range raw pCO2 stays `{value: null, error}`
with no warning, untouched by the correction; an in-range raw pCO2 not
below the 2.5 kPa correction threshold is left unchanged (even though its
×7.5 product may lie outside the bounds); and a value changed by the
correction pass always carries a non-null warning. -/
theorem C3_autocorrection_boundary :
    (getMV ((OcrP11.process (Json.jobj [("pco2", Json.jnum ⟨1, 0⟩)])).toOption.getD [])
        "pco2" =
      some ⟨some ⟨7500, 3⟩, none,
        some "Auto-corrected PCO2 (value looked divided by 7.5; multiplied to restore kPa)."⟩ ∧
      (⟨7500, 3⟩ : JsNum).toRat = 7.5) ∧
    (∀ fs num mv,
        OcrP11.toNum (OcrP11.fieldOr fs "pco2") = some num →
        (num.toRat < 0.5 ∨ 30 < num.toRat) →
        getMV (OcrP11.corrections (OcrP11.out fs)) "pco2" = some mv →
        mv.value = none ∧ mv.error ≠ none ∧ mv.warning = none) ∧
    (∀ fs num,
        OcrP11.toNum (OcrP11.fieldOr fs "pco2") = some num →
        (0.5 : ℚ) ≤ num.toRat → num.toRat ≤ 30 → ¬ num.toRat < 2.5 →
        getMV (OcrP11.corrections (OcrP11.out fs)) "pco2" =
          some ⟨some num, none, none⟩) ∧
    (∀ o k mv0 mv, getMV o k = some mv0 →
        getMV (OcrP11.corrections o) k = some mv →
        mv.value ≠ mv0.value → mv.warning ≠ none) ∧
    (getMV ((OcrP09.process (Json.jobj [("pco2", Json.jnum ⟨1, 0⟩)])).toOption.getD [])
        "pco2" =
      some ⟨some ⟨7500, 3⟩, none, some "Auto-corrected PCO2 (suspected ÷7.5 error)."⟩) ∧
    (∀ fs num mv,
        OcrP09.toNum (OcrP11.fieldOr fs "pco2") = some num →
        (num.toRat < 0.5 ∨ 30 < num.toRat) →
        getMV (OcrP09.corrections (OcrP09.out fs)) "pco2" = some mv →
        mv.value = none ∧ mv.error ≠ none ∧ mv.warning = none) ∧
    (∀ fs num,
        OcrP09.toNum (OcrP11.fieldOr fs "pco2") = some num →
        (0.5 : ℚ) ≤ num.toRat → num.toRat ≤ 30 → ¬ num.toRat < 2.5 →
        getMV (OcrP09.corrections (OcrP09.out fs)) "pco2" =
          some ⟨some num, none, none⟩) ∧
    (∀ o k mv0 mv, getMV o k = some mv0 →
        getMV (OcrP09.corrections o) k = some mv →
        mv.value ≠ mv0.value → mv.warning ≠ none) := by
  have hmn : (⟨5, 1⟩ : JsNum).toRat = 0.5 := by norm_num [JsNum.toRat]
  have hmx : (⟨30, 0⟩ : JsNum).toRat = 30 := by norm_num [JsNum.toRat]
  have hth : (⟨25, 1⟩ : JsNum).toRat = 2.5 := by norm_num [JsNum.toRat]
  refine ⟨⟨by decide, by norm_num [JsNum.toRat]⟩, ?_, ?_, ?_, by decide, ?_, ?_, ?_⟩
  · intro fs num mv ht hout hg
    rw [getMV_corrections11, getMV_out11, if_pos (by decide)] at hg
    simp only [Option.map_some', Option.some.injEq] at hg
    have hmk := mkEntry11_out_of_range "pco2" (OcrP11.fieldOr fs "pco2") num ht
      ⟨5, 1⟩ ⟨30, 0⟩ rfl (by rw [hmn, hmx]; exact hout)
    rw [corrAt11_none _ _ hmk.1] at hg
    subst hg
    exact hmk
  · intro fs num ht h05 h30 h25
    rw [getMV_corrections11, getMV_out11, if_pos (by decide)]
    rw [mkEntry11_in_range "pco2" _ num ht ⟨5, 1⟩ ⟨30, 0⟩ rfl
      (by rw [hmn, hmx]; exact ⟨h05, h30⟩)]
    rw [Option.map_some']
    unfold corrAt11
    rw [if_pos rfl, corrItem_eq_gen,
      corrGen_not_below _ _ _ _ _ num rfl (by rw [hth]; exact h25)]
  · intro o k mv0 mv hg0 hg hne
    rw [getMV_corrections11, hg0, Option.map_some'] at hg
    injection hg with hg1
    subst hg1
    exact corrAt11_changed k mv0 hne
  · intro fs num mv ht hout hg
    rw [getMV_corrections09, getMV_out09, if_pos (by decide)] at hg
    simp only [Option.map_some', Option.some.injEq] at hg
    have hmk := mkEntry09_out_of_range "pco2" (OcrP11.fieldOr fs "pco2") num ht
      ⟨5, 1⟩ ⟨30, 0⟩ rfl (by rw [hmn, hmx]; exact hout)
    rw [corrAt09_none _ _ hmk.1] at hg
    subst hg
    exact hmk
  · intro fs num ht h05 h30 h25
    rw [getMV_corrections09, getMV_out09, if_pos (by decide)]
    rw [mkEntry09_in_range "pco2" _ num ht ⟨5, 1⟩ ⟨30, 0⟩ rfl
      (by rw [hmn, hmx]; exact ⟨h05, h30⟩)]
    rw [Option.map_some']
    unfold corrAt09
    rw [if_pos rfl, fixItem_eq_gen,
      corrGen_not_below _ _ _ _ _ num rfl (by rw [hth]; exact h25)]
  · intro o k mv0 mv hg0 hg hne
    rw [getMV_corrections09, hg0, Option.map_some'] at hg
    injection hg with hg1
    subst hg1
    exact corrAt09_changed k mv0 hne

/-- Witness for C3: a concrete in-range pCO2 of 3.0 kPa (at or above the
2.5 threshold) passes through both pipelines unchanged. -/
theorem C3_autocorrection_boundary_witness :
    getMV (OcrP11.corrections (OcrP11.out [("pco2", Json.jnum ⟨30, 1⟩)])) "pco2" =
      some ⟨some ⟨30, 1⟩, none, none⟩ :=
  C3_autocorrection_boundary.2.2.1 [("pco2", Json.jnum ⟨30, 1⟩)] ⟨30, 1⟩
    rfl (by norm_num [JsNum.toRat]) (by norm_num [JsNum.toRat])
    (by norm_num [JsNum.toRat])

/-- Counterexample to C3 as frozen: the raw pCO2 value 5 kPa has ×7.5
product 37.5, which lies outside the pCO2 bounds `[0.5, 30]`, yet the
pipeline emits it with a non-null value `5` and a null error — it is not
left as `{value: null, error: ...}` as the claim states. -/
theorem C3_autocorrection_boundary_counterexample :
    getMV ((OcrP11.process (Json.jobj [("pco2", Json.jnum ⟨5, 0⟩)])).toOption.getD [])
        "pco2" = some ⟨some ⟨5, 0⟩, none, none⟩ ∧
    (⟨5, 0⟩ : JsNum).toRat * 7.5 = 37.5 ∧
    ¬ ((0.5 : ℚ) ≤ 37.5 ∧ (37.5 : ℚ) ≤ 30) := by
  refine ⟨by decide, by norm_num [JsNum.toRat], by norm_num⟩

/-! ## Request-body values for the `/analyze` handlers

A numeric field of the client body is absent (`undefined`), JSON `null`,
or a number.  (The handlers' claims concern numeric-or-absent bodies;
string-valued fields do not occur in the documented client contract.) -/

/-- One field of `values` in an `/analyze` request body. -/
inductive JField where
  | missing : JField
  | fnull : JField
  | num : JsNum → JField
deriving DecidableEq, Repr

namespace JField

/-- `typeof v === 'number'`. -/
def isNumber : JField → Bool
  | num _ => true
  | _ => false

/-- JavaScript truthiness. -/
def truthy : JField → Bool
  | missing => false
  | fnull => false
  | num q => !q.isZero

/-- Template-literal rendering `${v}`. -/
def templStr : JField → String
  | missing => "undefined"
  | fnull => "null"
  | num q => JsNum.render q

/-- `isNaN(v)` (numeric coercion: `undefined` is NaN, `null` is 0). -/
def isNaNB : JField → Bool
  | missing => true
  | _ => false

/-- `v !== null` (strict: `undefined !== null` is true). -/
def notNull : JField → Bool
  | fnull => false
  | _ => true

/-- `v < b` after numeric coercion (`null` coerces to 0, `undefined` to
NaN, for which every comparison is false). -/
def ltNum : JField → JsNum → Bool
  | num q, b => JsNum.ltB q b
  | fnull, b => JsNum.ltB ⟨0, 0⟩ b
  | missing, _ => false

/-- `v > b` after numeric coercion. -/
def gtNum : JField → JsNum → Bool
  | num q, b => JsNum.ltB b q
  | fnull, b => JsNum.ltB b ⟨0, 0⟩
  | missing, _ => false

/-- `v ?? dflt` for a numeric default (nullish coalescing). -/
def orNum (f : JField) (dflt : JsNum) : JsNum :=
  match f with
  | num q => q
  | _ => dflt

/-- The number, when present (`v ?? null`). -/
def nn : JField → Option JsNum
  | num q => some q
  | _ => none

end JField

/-- The `values` object of an `/analyze` request body. -/
structure Vals where
  ph : JField
  pco2 : JField
  po2 : JField
  hco3 : JField
  sodium : JField
  potassium : JField
  chloride : JField
  albumin : JField
  lactate : JField
  glucose : JField
  calcium : JField
  hb : JField
  fio2 : JField
  be : JField
deriving DecidableEq, Repr

/-- Right-fold concatenation of template pieces (a template literal is a
flat concatenation; the bracketing is semantically irrelevant and chosen
right-associated). -/
def concatStrs : List String → String
  | [] => ""
  | s :: rest => s ++ concatStrs rest

/-- `s || dflt` for strings (empty string is falsy). -/
def strOr (o : Option String) (d : String) : String :=
  match o with
  | some s => if s = "" then d else s
  | none => d

/-- `s ?? dflt` for strings (nullish: empty string is kept). -/
def strNN (o : Option String) (d : String) : String := o.getD d

/-- JavaScript truthiness of a JSON value (`!parsed[k]`). -/
def truthyJson : Json → Bool
  | Json.jnull => false
  | Json.jbool b => b
  | Json.jnum q => !q.isZero
  | Json.jstr s => s ≠ ""
  | Json.jarr _ => true
  | Json.jobj _ => true

/-- Is the serialised value a JSON object? -/
def isObjB : Json → Bool
  | Json.jobj _ => true
  | _ => false

/-- JavaScript object field write: overwrite the binding or append it. -/
def setField : List (String × Json) → String → Json → List (String × Json)
  | [], key, v => [(key, v)]
  | (k, w) :: fs, key, v =>
    if k = key then (key, v) :: fs else (k, w) :: setField fs key v

/-- ASCII lower-casing (for case-insensitive regex matching). -/
def toLowerC (c : Char) : Char :=
  if 'A' ≤ c ∧ c ≤ 'Z' then Char.ofNat (c.toNat + 32) else c

/-- Case-insensitive prefix test. -/
def startsWithCI : List Char → List Char → Bool
  | [], _ => true
  | _ :: _, [] => false
  | p :: ps, c :: cs => toLowerC p = toLowerC c && startsWithCI ps cs

/-- Remove every (case-insensitive) occurrence of `pat` together with the
whitespace run following it — `s.replace(/pat\s*/gi, '')`. -/
def stripPatWs (pat : List Char) : Nat → List Char → List Char
  | 0, cs => cs
  | _ + 1, [] => []
  | fuel + 1, c :: cs =>
    if startsWithCI pat (c :: cs) ∧ pat ≠ [] then
      stripPatWs pat fuel (dropWsL (List.drop pat.length (c :: cs)))
    else c :: stripPatWs pat fuel cs

/-- Keep the substring from the first `{` to the last `}` when both exist
in that order, as the brace-isolation heuristic does. -/
def braceSlice (s : String) : String :=
  match idxOfChar '\x7b' s.data, lastIdxOfChar '\x7d' s.data with
  | some i, some j => if i < j then jsSubstring s i (j + 1) else s
  | _, _ => s

/-- Remove raw control characters — `replace(/[\u0000-\u001F]+/g, '')`. -/
def ctrlStrip (s : String) : String :=
  String.mk (s.data.filter fun c => ¬ c.toNat < 32)

/-- Message of the platform `SyntaxError`/`TypeError` surfaced through
`error.message`; the claims depend only on it being a non-null string,
so it is modelled as a fixed constant. -/
def jsErrorMessage : String := "Unexpected token"

/-! ## `/analyze` handler, revision 1 of `netlify/functions/analyze.js`
(CommonJS `exports.handler`, Gemini 2.5 Flash prompt, six-key backfill,
parse-failure fallback) -/

namespace A1

/-- The input-validation condition (lines 36–44): `!values ||
typeof values.ph !== 'number' || typeof values.pco2 !== 'number'`. -/
def gate (values : Option Vals) : Bool :=
  match values with
  | none => true
  | some v => !(v.ph.isNumber) || !(v.pco2.isNumber)

/-- The pre-upstream part of the handler: configuration check, then input
validation; the second component records whether the completion service is
called. -/
def pre (apiKey : Option String) (values : Option Vals) : Option Nat × Bool :=
  if apiKey = none then (some 500, false)
  else if gate values then (some 400, false)
  else (none, true)

/-- `analysisValues.albumin` after the default
(`if (!albumin || isNaN(albumin)) albumin = 42.5`). -/
def albuminDefaulted (v : Vals) : JField :=
  if !(v.albumin.truthy) || v.albumin.isNaNB then JField.num ⟨425, 1⟩
  else v.albumin

/-- `pco2_mmHg = (analysisValues.pco2 * 7.5).toFixed(1)` (with the NaN
rendering for a non-numeric field, unreachable after validation). -/
def pco2mmHg (v : Vals) : String :=
  match v.pco2 with
  | JField.num q => JsNum.toFixedStr 1 (JsNum.mul q ⟨75, 1⟩)
  | _ => "NaN"

/-- `po2_mmHg = analysisValues.po2 ? (...*7.5).toFixed(1) : null`. -/
def po2mmHg (v : Vals) : Option String :=
  match v.po2 with
  | JField.num q => if !q.isZero then some (JsNum.toFixedStr 1 (JsNum.mul q ⟨75, 1⟩)) else none
  | _ => none

/-- One optional laboratory line of the prompt template:
rendered when the field is `!== null`, the empty string otherwise. -/
def optLine (f : JField) (pre suf : String) : String :=
  if f.notNull then pre ++ f.templStr ++ suf else ""

/-- The user prompt (template literal, lines 149–170). -/
def prompt (values : Vals) (clinicalHistory sampleType : Option String) : String :=
  concatStrs
    ["Perform a comprehensive blood gas analysis with detailed clinical interpretation.\n\nClinical Context: ",
     strOr clinicalHistory "No specific history provided",
     "\nSample Type: ",
     strOr sampleType "Arterial",
     "\n\nLaboratory Values:",
     "\n• pH: " ++ values.ph.templStr,
     "\n• pCO2: " ++ values.pco2.templStr ++ " kPa (" ++ pco2mmHg values ++ " mmHg)",
     "\n" ++ optLine values.po2 "• pO2: "
       (" kPa (" ++ (match po2mmHg values with | some s => s | none => "null") ++ " mmHg)"),
     "\n" ++ optLine values.hco3 "• HCO3-: " " mmol/L",
     "\n" ++ optLine values.sodium "• Na+: " " mmol/L",
     "\n" ++ optLine values.potassium "• K+: " " mmol/L",
     "\n" ++ optLine values.chloride "• Cl-: " " mmol/L",
     "\n• Albumin: " ++ (albuminDefaulted values).templStr ++ " g/L" ++
       (if values.albumin.truthy then "" else " (assumed normal)"),
     "\n" ++ optLine values.lactate "• Lactate: " " mmol/L",
     "\n" ++ optLine values.glucose "• Glucose: " " mmol/L",
     "\n" ++ optLine values.calcium "• Ionised Calcium: " " mmol/L",
     "\n" ++ optLine values.hb "• Hemoglobin: " " g/L",
     "\n" ++ optLine values.fio2 "• FiO2: " "%",
     "\n\nProvide a detailed interpretation following the exact format specified. Show ALL calculations with actual numbers.\nRemember to return ONLY the JSON object, no other text."]

/-- The six required analysis keys. -/
def requiredKeys : List String :=
  ["keyFindings", "compensationAnalysis", "hhAnalysis", "stewartAnalysis",
   "additionalCalculations", "differentials"]

/-- Does the extracted value survive the validation loop
(`!v || typeof v !== 'string' || v.length < 20` replaces it)? -/
def keepVal : Option Json → Bool
  | some (Json.jstr s) => decide (20 ≤ s.length)
  | _ => false

/-- The backfill loop over the required keys. -/
def backfill : List (String × Json) → List String → List (String × Json)
  | fs, [] => fs
  | fs, k :: ks =>
    backfill
      (if keepVal (getField fs k) then fs
       else setField fs k
         (Json.jstr (k ++ " analysis pending - please retry if this persists.")))
      ks

/-- The 500 body of the outer catch. -/
def errObj : Json :=
  Json.jobj
    [("error", Json.jstr "An error occurred during analysis. Please try again."),
     ("details", Json.jstr jsErrorMessage)]

/-- The second-attempt cleanup (lines 244–264): case-insensitive fence
stripping with whitespace gobbling, brace isolation, control-character
removal. -/
def cleanup (responseText : String) : String :=
  let l1 := stripPatWs ("```json".data) responseText.data.length responseText.data
  let l2 := stripPatWs ("```".data) l1.length l1
  ctrlStrip (braceSlice (String.mk l2))

/-- The two parse attempts: strict parse of the trimmed text, then parse
of the cleaned text. -/
def extractAttempt (responseText : String) : Option Json :=
  match jsonParse (jsTrim responseText) with
  | some j => some j
  | none => jsonParse (cleanup responseText)

/-- The key-validation pass and the 200 return (lines 292–309).  A parsed
`null` throws on property access (outer catch → 500); property writes on
primitives are sloppy-mode no-ops and writes on arrays are dropped by
`JSON.stringify`, so those values are returned unchanged with 200. -/
def finalize (j : Json) : Nat × Json :=
  match j with
  | Json.jnull => (500, errObj)
  | Json.jobj fs => (200, Json.jobj (backfill fs requiredKeys))
  | other => (200, other)

/-- The structured-error fallback returned with HTTP 200 when both parse
attempts fail (lines 271–288). -/
def fallback (values : Vals) : Json :=
  Json.jobj
    [("keyFindings", Json.jstr
       ("Analysis completed but formatting error occurred. The blood gas shows: pH "
         ++ values.ph.templStr ++ " with pCO2 " ++ values.pco2.templStr ++ " kPa. "
         ++ (if values.ph.ltNum ⟨735, 2⟩ then "This indicates acidemia. "
             else if values.ph.gtNum ⟨745, 2⟩ then "This indicates alkalemia. "
             else "pH is within normal range. ")
         ++ "Please retry for detailed analysis.")),
     ("compensationAnalysis", Json.jstr
       "Detailed compensation analysis unavailable due to formatting error. Please retry."),
     ("hhAnalysis", Json.jstr
       ("Henderson-Hasselbalch Analysis\npH: " ++ values.ph.templStr
         ++ "\npCO2: " ++ values.pco2.templStr ++ " kPa (" ++ pco2mmHg values ++ " mmHg)\n"
         ++ (if values.hco3.truthy then "HCO3: " ++ values.hco3.templStr ++ " mmol/L\n" else "")
         ++ "Complete analysis unavailable - please retry.")),
     ("stewartAnalysis", Json.jstr
       "Stewart analysis unavailable due to formatting error. Please retry."),
     ("additionalCalculations", Json.jstr
       "Additional calculations unavailable. Please retry."),
     ("differentials", Json.jstr
       "Differential diagnoses unavailable. Please retry for comprehensive list.")]

/-- The handler from the extracted upstream text onward. -/
def respond (values : Vals) (responseText : String) : Nat × Json :=
  match extractAttempt responseText with
  | some j => finalize j
  | none => (200, fallback values)

/-- The handler from the upstream response onward, including the
empty-response check (`if (!responseText)` → 502). -/
def postUpstream (values : Vals) (responseText : Option String) : Nat × Json :=
  match responseText with
  | none => (502, Json.jobj [("error", Json.jstr "No analysis generated. Please try again.")])
  | some t =>
    if t = "" then
      (502, Json.jobj [("error", Json.jstr "No analysis generated. Please try again.")])
    else respond values t

end A1

/-! ## `/analyze` handler, revision 2 of `netlify/functions/analyze.js`
(ES module `export async function handler`, `combinedPrompt`, truthiness
gate, `"No data provided."` backfill) -/

namespace A2

/-- The input-validation condition (line 331):
`!values?.ph || !values?.pco2` (truthiness, not type checking). -/
def gate (values : Option Vals) : Bool :=
  match values with
  | none => true
  | some v => !(v.ph.truthy) || !(v.pco2.truthy)

/-- The pre-upstream part: input validation first, then the configuration
check; the second component records whether the completion service is
called. -/
def pre (apiKey : Option String) (values : Option Vals) : Option Nat × Bool :=
  if gate values then (some 400, false)
  else if apiKey = none then (some 500, false)
  else (none, true)

/-- `albumin = values.albumin ?? 42.5`. -/
def albuminVal (v : Vals) : JsNum := v.albumin.orNum ⟨425, 1⟩

/-- `be = values.be ?? 0`. -/
def beVal (v : Vals) : JsNum := v.be.orNum ⟨0, 0⟩

/-- `- pO₂: ${po2 !== null ? po2 + " kPa" : "not provided"}`. -/
def po2Str (v : Vals) : String :=
  match v.po2.nn with
  | some q => JsNum.render q ++ " kPa"
  | none => "not provided"

/-- `${hco3 ?? "not provided"}`. -/
def hco3Str (v : Vals) : String :=
  match v.hco3.nn with
  | some q => JsNum.render q
  | none => "not provided"

/-- `${na ?? "not provided"}`. -/
def naStr (v : Vals) : String :=
  match v.sodium.nn with
  | some q => JsNum.render q
  | none => "not provided"

/-- `${k ?? "not provided"}`. -/
def kStr (v : Vals) : String :=
  match v.potassium.nn with
  | some q => JsNum.render q
  | none => "not provided"

/-- `${cl ?? "not provided"}`. -/
def clStr (v : Vals) : String :=
  match v.chloride.nn with
  | some q => JsNum.render q
  | none => "not provided"

/-- `ag = (na ?? 0) + (k ?? 0) - ((cl ?? 0) + (hco3 ?? 0))`. -/
def agVal (v : Vals) : JsNum :=
  JsNum.sub (JsNum.add (v.sodium.orNum ⟨0, 0⟩) (v.potassium.orNum ⟨0, 0⟩))
    (JsNum.add (v.chloride.orNum ⟨0, 0⟩) (v.hco3.orNum ⟨0, 0⟩))

/-- `sida = (na ?? 0) + (k ?? 0) - (cl ?? 0)`. -/
def sidaVal (v : Vals) : JsNum :=
  JsNum.sub (JsNum.add (v.sodium.orNum ⟨0, 0⟩) (v.potassium.orNum ⟨0, 0⟩))
    (v.chloride.orNum ⟨0, 0⟩)

/-- `side = (hco3 ?? 0) + (albumin * 0.25)`. -/
def sideVal (v : Vals) : JsNum :=
  JsNum.add (v.hco3.orNum ⟨0, 0⟩) (JsNum.mul (albuminVal v) ⟨25, 2⟩)

/-- `sig = sida - side`. -/
def sigVal (v : Vals) : JsNum := JsNum.sub (sidaVal v) (sideVal v)

/-- `winters = hco3 !== null ? (1.5 * hco3 + 8).toFixed(2) : null`. -/
def wintersStr (v : Vals) : Option String :=
  match v.hco3.nn with
  | some q => some (JsNum.toFixedStr 2 (JsNum.add (JsNum.mul ⟨15, 1⟩ q) ⟨8, 0⟩))
  | none => none

/-- The `combinedPrompt` template literal (lines 356–400); the
exponent-free numbers of this fragment are never NaN, so the
`isNaN(...) ? "not available" : ...` interpolations render the numbers. -/
def combinedPrompt (v : Vals) (clinicalHistory sampleType : Option String) : String :=
  concatStrs
    ["\nYou are a consultant in emergency medicine and critical care. Interpret the following blood gas with detailed calculations.\n\n⚠️ Important: pCO₂ and pO₂ are always given in kPa. Do NOT convert them.\n\nPatient Data:",
     "\n- pH: " ++ v.ph.templStr,
     "\n- pCO₂: " ++ v.pco2.templStr ++ " kPa",
     "\n- pO₂: " ++ po2Str v,
     "\n- HCO₃⁻: " ++ hco3Str v,
     "\n- Base Excess (BE): " ++ JsNum.render (beVal v),
     "\n- Na⁺: " ++ naStr v,
     "\n- K⁺: " ++ kStr v,
     "\n- Cl⁻: " ++ clStr v,
     "\n- Albumin: " ++ JsNum.render (albuminVal v) ++ " g/L",
     "\n- Clinical context: " ++ strNN clinicalHistory "not provided",
     "\n- Sample type: " ++ strNN sampleType "not specified",
     "\n\nPre-computed values (for accuracy):",
     "\n- Anion Gap (AG): " ++ JsNum.render (agVal v),
     "\n- SIDa: " ++ JsNum.render (sidaVal v),
     "\n- SIDe: " ++ JsNum.render (sideVal v),
     "\n- SIG: " ++ JsNum.render (sigVal v),
     "\n- Winter's expected pCO₂: " ++ strNN (wintersStr v) "not available",
     "\n\n### Instructions\n1. Provide **Key Findings**.  \n2. Do **Compensation Analysis** using Winter’s formula, expected HCO₃⁻, acute/chronic respiratory rules.  \n3. Provide a full **Henderson–Hasselbalch Analysis** with pH, pCO₂, HCO₃⁻ interpretation, and observed vs expected values.  \n4. Provide a full **Stewart Analysis** (SIDa, SIDe, SIG), explain significance.  \n5. Provide **Additional Calculations**: AG, albumin-corrected AG, delta ratio, Base Excess interpretation.  \n6. Provide **Differentials**: bullet points, likely causes, and next steps.  \n7. All sections must be detailed Markdown (use headings ### and bullet points).  \n\n### Response Format\nReturn ONLY a JSON object with these keys:\n\x7b\n  \"keyFindings\": \"...\",\n  \"compensationAnalysis\": \"...\",\n  \"hhAnalysis\": \"...\",\n  \"stewartAnalysis\": \"...\",\n  \"additionalCalculations\": \"...\",\n  \"differentials\": \"...\"\n\x7d\n"]

/-- The fence-strip repair of this revision
(`rawText.replace(/```json/g, "").replace(/```/g, "")`). -/
def cleaned (rawText : String) : String :=
  jsReplaceAll (jsReplaceAll rawText "```json" "") "```" ""

/-- The six required keys (same list as revision 1). -/
def required : List String := A1.requiredKeys

/-- Does the extracted value survive the backfill (`if (!parsed[k])`)? -/
def keep2 : Option Json → Bool
  | some v => truthyJson v
  | none => false

/-- The backfill loop (`for k of required: if (!parsed[k]) parsed[k] =
"No data provided."`). -/
def backfill2 : List (String × Json) → List String → List (String × Json)
  | fs, [] => fs
  | fs, k :: ks =>
    backfill2
      (if keep2 (getField fs k) then fs
       else setField fs k (Json.jstr "No data provided."))
      ks

/-- The 500 body of the outer catch. -/
def errObj2 : Json :=
  Json.jobj
    [("error", Json.jstr "Internal server error"),
     ("details", Json.jstr jsErrorMessage)]

/-- The backfill and the 200 return.  This revision is an ES module
(strict mode): a property write on a primitive or a property read on
`null` throws (outer catch → 500); writes on arrays succeed but are
dropped by `JSON.stringify`. -/
def finalize2 (j : Json) : Nat × Json :=
  match j with
  | Json.jobj fs => (200, Json.jobj (backfill2 fs required))
  | Json.jarr l => (200, Json.jarr l)
  | _ => (500, errObj2)

/-- The handler from the trimmed upstream text onward: strict parse,
fence-strip retry, outer catch. -/
def respond2 (rawText : String) : Nat × Json :=
  match jsonParse rawText with
  | some j => finalize2 j
  | none =>
    match jsonParse (cleaned rawText) with
    | some j => finalize2 j
    | none => (500, errObj2)

/-- The handler from the upstream response onward
(`rawText = ...?.text?.trim(); if (!rawText)` → 500). -/
def postUpstream2 (rawText : Option String) : Nat × Json :=
  match rawText with
  | none => (500, Json.jobj [("error", Json.jstr "No text output from model.")])
  | some t =>
    let tt := jsTrim t
    if tt = "" then (500, Json.jobj [("error", Json.jstr "No text output from model.")])
    else respond2 tt

end A2

/-! ## Background workers and the job store writes -/

/-- One record written to the job store. -/
structure JobWrite where
  status : String
  data : Option Json
  error : Option String

/-- Outcome of the outbound completion-service call. -/
inductive FetchOut where
  | netErr : String → FetchOut
  | notOk : String → FetchOut
  | ok : Option String → FetchOut

/-- The initial record written by the job orchestrator
(`start-analysis.js`: `set(jobId, { status: 'pending', data: jobData })`). -/
def pendingWrite (jobData : Json) : JobWrite := ⟨"pending", some jobData, none⟩

namespace PA

/-- The analysis background worker (`api/process-analysis.js`): every path
inside the `try` ends in exactly one terminal store write; `buildErr`
models an exception thrown while destructuring the job data or building
the prompt. -/
def run (apiKey : Option String) (buildErr : Option String) (fetch : FetchOut) :
    List JobWrite :=
  match apiKey with
  | none => [⟨"failed", none, some "API key not configured."⟩]
  | some _ =>
    match buildErr with
    | some m => [⟨"failed", none, some m⟩]
    | none =>
      match fetch with
      | FetchOut.netErr m => [⟨"failed", none, some m⟩]
      | FetchOut.notOk t => [⟨"failed", none, some t⟩]
      | FetchOut.ok none => [⟨"failed", none, some "No content returned from AI."⟩]
      | FetchOut.ok (some text) =>
        match idxOfChar '\x7b' text.data, lastIdxOfChar '\x7d' text.data with
        | some i, some j =>
          (match jsonParse (jsSubstring text i (j + 1)) with
           | some ej => [⟨"complete", some ej, none⟩]
           | none => [⟨"failed", none, some jsErrorMessage⟩])
        | some _, none => [⟨"failed", none, some "AI response did not contain valid JSON."⟩]
        | none, _ => [⟨"failed", none, some "AI response did not contain valid JSON."⟩]

end PA

namespace CSW

/-- The OCR background worker (second document of
`netlify/edge-functions/check-status.js`): identical control flow to the
analysis worker, writing to the `ocrJobs` store. -/
def run (apiKey : Option String) (buildErr : Option String) (fetch : FetchOut) :
    List JobWrite :=
  match apiKey with
  | none => [⟨"failed", none, some "API key not configured."⟩]
  | some _ =>
    match buildErr with
    | some m => [⟨"failed", none, some m⟩]
    | none =>
      match fetch with
      | FetchOut.netErr m => [⟨"failed", none, some m⟩]
      | FetchOut.notOk t => [⟨"failed", none, some t⟩]
      | FetchOut.ok none => [⟨"failed", none, some "No content returned from AI."⟩]
      | FetchOut.ok (some text) =>
        match idxOfChar '\x7b' text.data, lastIdxOfChar '\x7d' text.data with
        | some i, some j =>
          (match jsonParse (jsSubstring text i (j + 1)) with
           | some ej => [⟨"complete", some ej, none⟩]
           | none => [⟨"failed", none, some jsErrorMessage⟩])
        | some _, none => [⟨"failed", none, some "AI response did not contain valid JSON."⟩]
        | none, _ => [⟨"failed", none, some "AI response did not contain valid JSON."⟩]

end CSW

/-! ## String-containment and counting lemmas -/

theorem startsWithSeq_self_append (a b : List Char) :
    startsWithSeq a (a ++ b) = true := by
  induction a with
  | nil => rfl
  | cons c cs ih => simp [startsWithSeq, ih]

theorem startsWithSeq_ext (n hay b : List Char) (h : startsWithSeq n hay = true) :
    startsWithSeq n (hay ++ b) = true := by
  induction n generalizing hay with
  | nil => rfl
  | cons p ps ih =>
    cases hay with
    | nil => exact absurd h (by simp [startsWithSeq])
    | cons c cs =>
      simp only [startsWithSeq, Bool.and_eq_true] at h
      simp [startsWithSeq, h.1, ih cs h.2]

theorem containsSeq_of_startsWith (n hay : List Char)
    (h : startsWithSeq n hay = true) : containsSeq n hay = true := by
  cases hay with
  | nil => simpa [containsSeq] using h
  | cons c cs => simp [containsSeq, h]

theorem containsSeq_cons (n : List Char) (c : Char) (hay : List Char)
    (h : containsSeq n hay = true) : containsSeq n (c :: hay) = true := by
  simp [containsSeq, h]

theorem containsSeq_pre (pre n hay : List Char) (h : containsSeq n hay = true) :
    containsSeq n (pre ++ hay) = true := by
  induction pre with
  | nil => simpa
  | cons c cs ih => exact containsSeq_cons _ _ _ ih

theorem containsSeq_ext_right (n a b : List Char) (h : containsSeq n a = true) :
    containsSeq n (a ++ b) = true := by
  induction a with
  | nil =>
    simp only [containsSeq] at h
    cases n with
    | nil => cases b with
      | nil => simpa [containsSeq]
      | cons c cs => simp [containsSeq, startsWithSeq]
    | cons p ps => exact absurd h (by simp [startsWithSeq])
  | cons c cs ih =>
    simp only [containsSeq, Bool.or_eq_true] at h
    rcases h with h | h
    · have h2 := startsWithSeq_ext n (c :: cs) b h
      simp only [List.cons_append] at h2
      simp [containsSeq, h2]
    · simp [containsSeq, ih h]

theorem containsSub_self (p : String) : containsSub p p = true := by
  unfold containsSub
  have : startsWithSeq p.data p.data = true := by
    have := startsWithSeq_self_append p.data []
    simpa using this
  exact containsSeq_of_startsWith _ _ this

theorem contains_concatStrs_of (l : List String) (p n : String) (hp : p ∈ l)
    (h : containsSub p n = true) : containsSub (concatStrs l) n = true := by
  induction l with
  | nil => cases hp
  | cons s rest ih =>
    rcases List.mem_cons.mp hp with h0 | h0
    · subst h0
      show containsSub (p ++ concatStrs rest) n = true
      unfold containsSub
      rw [String.data_append]
      exact containsSeq_ext_right _ _ _ h
    · show containsSub (s ++ concatStrs rest) n = true
      unfold containsSub
      rw [String.data_append]
      exact containsSeq_pre _ _ _ (ih h0)

theorem contains_concatStrs (l : List String) (p : String) (hp : p ∈ l) :
    containsSub (concatStrs l) p = true :=
  contains_concatStrs_of l p p hp (containsSub_self p)

/-- Number of occurrences of a character. -/
def countChar (c : Char) : List Char → Nat
  | [] => 0
  | d :: ds => (if d = c then 1 else 0) + countChar c ds

theorem countChar_append (c : Char) (a b : List Char) :
    countChar c (a ++ b) = countChar c a + countChar c b := by
  induction a with
  | nil => simp [countChar]
  | cons d ds ih => simp [countChar, ih]; omega

theorem startsWith_countChar (pat cs : List Char) (ch : Char)
    (h : startsWithSeq pat cs = true) :
    countChar ch cs = countChar ch pat + countChar ch (List.drop pat.length cs) := by
  induction pat generalizing cs with
  | nil => simp [countChar]
  | cons p ps ih =>
    cases cs with
    | nil => exact absurd h (by simp [startsWithSeq])
    | cons c cs2 =>
      simp only [startsWithSeq, Bool.and_eq_true] at h
      have hpc : p = c := by
        have := h.1
        simpa using this
      subst hpc
      simp only [countChar, List.length_cons, List.drop_succ_cons]
      rw [ih cs2 h.2]
      omega

theorem replaceAllF_countChar (pat rep : List Char) (ch : Char)
    (hp : countChar ch pat = 0) (hr : countChar ch rep = 0) :
    ∀ fuel cs, countChar ch (replaceAllF pat rep fuel cs) = countChar ch cs := by
  intro fuel
  induction fuel with
  | zero => intro cs; rfl
  | succ f ih =>
    intro cs
    cases cs with
    | nil => rfl
    | cons c cs2 =>
      unfold replaceAllF
      by_cases hcond : startsWithSeq pat (c :: cs2) = true ∧ pat ≠ []
      · rw [if_pos hcond, countChar_append, hr, ih]
        rw [startsWith_countChar pat (c :: cs2) ch hcond.1, hp]
      · rw [if_neg hcond]
        simp [countChar, ih]

theorem jsReplaceAll_data (s pat rep : String) :
    (jsReplaceAll s pat rep).data = replaceAllF pat.data rep.data s.data.length s.data := rfl

theorem stripFences_comma (s : String) :
    countChar ',' (OcrP11.stripFences s).data = countChar ',' s.data := by
  unfold OcrP11.stripFences
  rw [jsReplaceAll_data, jsReplaceAll_data]
  rw [replaceAllF_countChar _ _ _ (by decide) (by decide),
    replaceAllF_countChar _ _ _ (by decide) (by decide)]

/-! ## Lemmas about field writes and the key backfill -/

theorem getField_setField_self (fs : List (String × Json)) (k : String) (v : Json) :
    getField (setField fs k v) k = some v := by
  induction fs with
  | nil => simp [setField, getField]
  | cons hd tl ih =>
    obtain ⟨k0, w⟩ := hd
    by_cases h : k0 = k
    · simp [setField, h, getField]
    · simp [setField, h, getField, ih]

theorem getField_setField_other (fs : List (String × Json)) (key k : String)
    (v : Json) (h : k ≠ key) : getField (setField fs key v) k = getField fs k := by
  have hkk : ¬ key = k := fun hc => h hc.symm
  induction fs with
  | nil => simp [setField, getField, hkk]
  | cons hd tl ih =>
    obtain ⟨k0, w⟩ := hd
    by_cases h0 : k0 = key
    · subst h0
      rw [show setField ((k0, w) :: tl) k0 v = (k0, v) :: tl from by simp [setField]]
      simp [getField, hkk]
    · rw [show setField ((k0, w) :: tl) key v = (k0, w) :: setField tl key v from by
        simp [setField, h0]]
      by_cases h1 : k0 = k
      · simp [getField, h1]
      · simp [getField, h1, ih]

theorem setField_keeps_isSome (fs : List (String × Json)) (key k : String)
    (v : Json) (h : (getField fs k).isSome = true) :
    (getField (setField fs key v) k).isSome = true := by
  by_cases hk : k = key
  · subst hk
    rw [getField_setField_self]
    rfl
  · rw [getField_setField_other fs key k v hk]
    exact h

theorem backfill_keeps (ks : List String) (fs : List (String × Json)) (k : String)
    (h : (getField fs k).isSome = true) :
    (getField (A1.backfill fs ks) k).isSome = true := by
  induction ks generalizing fs with
  | nil => exact h
  | cons k0 ks2 ih =>
    unfold A1.backfill
    by_cases hkeep : A1.keepVal (getField fs k0) = true
    · rw [if_pos hkeep]
      exact ih fs h
    · rw [if_neg hkeep]
      exact ih _ (setField_keeps_isSome fs k0 k _ h)

theorem backfill_mem (ks : List String) (fs : List (String × Json)) (k : String)
    (hk : k ∈ ks) : (getField (A1.backfill fs ks) k).isSome = true := by
  induction ks generalizing fs with
  | nil => cases hk
  | cons k0 ks2 ih =>
    unfold A1.backfill
    rcases List.mem_cons.mp hk with h0 | h0
    · subst h0
      by_cases hkeep : A1.keepVal (getField fs k) = true
      · rw [if_pos hkeep]
        apply backfill_keeps
        cases hg : getField fs k with
        | none => rw [hg] at hkeep; exact absurd hkeep (by simp [A1.keepVal])
        | some v => rfl
      · rw [if_neg hkeep]
        apply backfill_keeps
        rw [getField_setField_self]
        rfl
    · by_cases hkeep : A1.keepVal (getField fs k0) = true
      · rw [if_pos hkeep]
        exact ih fs h0
      · rw [if_neg hkeep]
        exact ih _ h0

theorem getField_map_mv (g : MeasuredValue → Json)
    (o : List (String × MeasuredValue)) (k : String) :
    getField (o.map fun p => (p.1, g p.2)) k = (getMV o k).map g := by
  induction o with
  | nil => rfl
  | cons hd tl ih =>
    obtain ⟨k0, it⟩ := hd
    show getField ((k0, g it) :: tl.map fun p => (p.1, g p.2)) k = _
    by_cases h : k0 = k
    · simp [getField, getMV, h]
    · simp [getField, getMV, h, ih]

/-- Modelled from the spec: the trailing-comma repair the specification
lists among the extractor's textual repairs ("strip trailing commas before
`}`/`]`") — a comma whose next non-whitespace character is a closing brace
or bracket is removed.  No revision of the repository implements it; the
definition exists to compare the claimed repair with the implemented one. -/
def stripTrailingCommasSpec (s : String) : String :=
  String.mk (go s.data)
where
  go : List Char → List Char
    | [] => []
    | ',' :: rest =>
      (match dropWsL rest with
       | '\x7d' :: _ => go rest
       | ']' :: _ => go rest
       | _ => ',' :: go rest)
    | c :: rest => c :: go rest

/-- Claim C4 (amended): for an upstream text that parses on neither
attempt, analyze revision 2 returns HTTP 500 ("Internal server error") and
the asynchronous worker writes a `failed` record; analyze revision 1,
however, returns HTTP 200 with the fully-keyed placeholder fallback object
instead of an error status. -/
theorem C4_unparsable_handling :
    (∀ values t, jsonParse (jsTrim t) = none → jsonParse (A1.cleanup t) = none →
        A1.respond values t = (200, A1.fallback values)) ∧
    (∀ t, jsonParse t = none → jsonParse (A2.cleaned t) = none →
        A2.respond2 t = (500, A2.errObj2)) ∧
    (∀ k text i j, idxOfChar '\x7b' text.data = some i →
        lastIdxOfChar '\x7d' text.data = some j →
        jsonParse (jsSubstring text i (j + 1)) = none →
        PA.run (some k) none (FetchOut.ok (some text)) =
          [⟨"failed", none, some jsErrorMessage⟩]) ∧
    (∀ k text, idxOfChar '\x7b' text.data = none →
        PA.run (some k) none (FetchOut.ok (some text)) =
          [⟨"failed", none, some "AI response did not contain valid JSON."⟩]) := by
  refine ⟨?_, ?_, ?_, ?_⟩
  · intro values t h1 h2
    unfold A1.respond A1.extractAttempt
    rw [h1, h2]
  · intro t h1 h2
    unfold A2.respond2
    rw [h1, h2]
  · intro k text i j h1 h2 h3
    unfold PA.run
    simp only [h1, h2, h3]
  · intro k text h1
    unfold PA.run
    simp only [h1]

/-- Witness for C4: the unparsable upstream text `"garbage"` drives
revision 2 to the 500 error object. -/
theorem C4_unparsable_handling_witness :
    A2.respond2 "garbage" = (500, A2.errObj2) :=
  C4_unparsable_handling.2.1 "garbage" rfl rfl

/-- Counterexample to C4 as frozen: on the unparsable upstream text
`"garbage"` (no JSON found by either parse attempt), analyze revision 1 —
the revision whose parse-failure fallback the claim cites — returns
HTTP 200, not 500. -/
theorem C4_unparsable_handling_counterexample :
    (A1.respond
      ⟨JField.num ⟨74, 1⟩, JField.num ⟨50, 1⟩, JField.missing, JField.missing,
       JField.missing, JField.missing, JField.missing, JField.missing,
       JField.missing, JField.missing, JField.missing, JField.missing,
       JField.missing, JField.missing⟩ "garbage").1 = 200 ∧
    jsonParse (jsTrim "garbage") = none ∧
    jsonParse (A1.cleanup "garbage") = none := by
  refine ⟨rfl, rfl, rfl⟩

/-- Claim C5: every execution of either background worker performs exactly
one store write, whose status is a terminal `"complete"` (with data) or
`"failed"` (with an error string) and never `"pending"` or a third value;
together with the orchestrator's initial `pending` write this yields the
pending-then-terminal observation order. -/
theorem C5_worker_terminal_write :
    (∀ apiKey buildErr fetch, (PA.run apiKey buildErr fetch).length = 1) ∧
    (∀ apiKey buildErr fetch w, w ∈ PA.run apiKey buildErr fetch →
        (w.status = "complete" ∨ w.status = "failed") ∧
        w.status ≠ "pending" ∧
        (w.status = "failed" → w.error ≠ none) ∧
        (w.status = "complete" → w.data ≠ none)) ∧
    (∀ jobData, (pendingWrite jobData).status = "pending") ∧
    (∀ apiKey buildErr fetch, (CSW.run apiKey buildErr fetch).length = 1) ∧
    (∀ apiKey buildErr fetch w, w ∈ CSW.run apiKey buildErr fetch →
        (w.status = "complete" ∨ w.status = "failed") ∧
        w.status ≠ "pending" ∧
        (w.status = "failed" → w.error ≠ none) ∧
        (w.status = "complete" → w.data ≠ none)) := by
  refine ⟨?_, ?_, fun _ => rfl, ?_, ?_⟩
  · intro apiKey buildErr fetch
    unfold PA.run
    repeat' split
    all_goals rfl
  · intro apiKey buildErr fetch w hw
    unfold PA.run at hw
    repeat' split at hw
    all_goals
      simp only [List.mem_singleton] at hw
    all_goals
      subst hw
    all_goals
      refine ⟨by simp, by simp, by simp, by simp⟩
  · intro apiKey buildErr fetch
    unfold CSW.run
    repeat' split
    all_goals rfl
  · intro apiKey buildErr fetch w hw
    unfold CSW.run at hw
    repeat' split at hw
    all_goals
      simp only [List.mem_singleton] at hw
    all_goals
      subst hw
    all_goals
      refine ⟨by simp, by simp, by simp, by simp⟩

/-- Witness for C5: the write of a worker run with a missing API key is
terminal (`failed`) with a non-null error. -/
theorem C5_worker_terminal_write_witness :
    (((⟨"failed", none, some "API key not configured."⟩ : JobWrite).status = "complete" ∨
      (⟨"failed", none, some "API key not configured."⟩ : JobWrite).status = "failed") ∧
     (⟨"failed", none, some "API key not configured."⟩ : JobWrite).status ≠ "pending" ∧
     ((⟨"failed", none, some "API key not configured."⟩ : JobWrite).status = "failed" →
       (⟨"failed", none, some "API key not configured."⟩ : JobWrite).error ≠ none) ∧
     ((⟨"failed", none, some "API key not configured."⟩ : JobWrite).status = "complete" →
       (⟨"failed", none, some "API key not configured."⟩ : JobWrite).data ≠ none)) :=
  C5_worker_terminal_write.2.1 none none (FetchOut.ok none)
    ⟨"failed", none, some "API key not configured."⟩ (by simp [PA.run])

/-- Claim C6 (amended): each extractor attempts a strict parse first, on
failure applies its bounded textual repair — fence stripping in the OCR
revision; fence stripping, first-to-last-brace isolation and
control-character removal in analyze revision 1 — and retries exactly
once, failing if the repaired candidate is still unparsable.  The repair
never strips trailing commas: the OCR repair preserves the comma count of
the text verbatim. -/
theorem C6_two_attempt_extraction :
    (∀ raw j, jsonParse raw = some j → OcrP11.extract raw = some j) ∧
    (∀ raw j, jsonParse raw = none → jsonParse (OcrP11.stripFences raw) = some j →
        OcrP11.extract raw = some j) ∧
    (∀ raw, jsonParse raw = none → jsonParse (OcrP11.stripFences raw) = none →
        OcrP11.extract raw = none) ∧
    (∀ raw, countChar ',' (OcrP11.stripFences raw).data = countChar ',' raw.data) ∧
    (∀ t j, jsonParse (jsTrim t) = some j → A1.extractAttempt t = some j) ∧
    (∀ t j, jsonParse (jsTrim t) = none → jsonParse (A1.cleanup t) = some j →
        A1.extractAttempt t = some j) ∧
    (∀ t, jsonParse (jsTrim t) = none → jsonParse (A1.cleanup t) = none →
        A1.extractAttempt t = none) := by
  refine ⟨?_, ?_, ?_, stripFences_comma, ?_, ?_, ?_⟩
  · intro raw j h1
    unfold OcrP11.extract
    rw [h1]
  · intro raw j h1 h2
    unfold OcrP11.extract
    rw [h1, h2]
  · intro raw h1 h2
    unfold OcrP11.extract
    rw [h1, h2]
  · intro t j h1
    unfold A1.extractAttempt
    rw [h1]
  · intro t j h1 h2
    unfold A1.extractAttempt
    rw [h1, h2]
  · intro t h1 h2
    unfold A1.extractAttempt
    rw [h1, h2]

/-- Witness for C6: the text `"nojson"` fails both attempts of the OCR
extractor, and the fence-strip repair preserves the commas of a concrete
text. -/
theorem C6_two_attempt_extraction_witness :
    OcrP11.extract "nojson" = none ∧
    countChar ',' (OcrP11.stripFences "a, b,").data = countChar ',' "a, b,".data :=
  ⟨C6_two_attempt_extraction.2.2.1 "nojson" rfl rfl,
   C6_two_attempt_extraction.2.2.2.1 "a, b,"⟩

/-- Counterexample to C6 as frozen: the claim's repair list includes
stripping trailing commas before a closing brace, but the implemented
repair leaves `'\x7b"a": 1,\x7d'` unchanged and the extraction fails,
while the claimed repair would have made the retry succeed. -/
theorem C6_two_attempt_extraction_counterexample :
    jsonParse "\x7b\"a\": 1,\x7d" = none ∧
    OcrP11.stripFences "\x7b\"a\": 1,\x7d" = "\x7b\"a\": 1,\x7d" ∧
    OcrP11.extract "\x7b\"a\": 1,\x7d" = none ∧
    (jsonParse (stripTrailingCommasSpec "\x7b\"a\": 1,\x7d")).isSome = true := by
  refine ⟨rfl, rfl, rfl, rfl⟩

/-- Claim C2 (amended): an HTTP 200 result of the OCR `{value, error,
warning}` handler always carries all thirteen measured-value keys, and an
HTTP 200 result of analyze revision 1 whose body is a JSON object always
carries all six analysis keys (missing or short values are backfilled with
placeholders, and the parse-failure fallback is fully keyed).  A 200
response whose parsed body is a top-level non-object (e.g. an array) is
returned without the keys. -/
theorem C2_required_keys :
    (∀ raw st body, OcrP11.respond raw = (st, body) → st = 200 →
        ∀ k, k ∈ OcrP11.keys → hasKeyB body k = true) ∧
    (∀ values raw st body, A1.respond values raw = (st, body) → st = 200 →
        isObjB body = true → ∀ k, k ∈ A1.requiredKeys → hasKeyB body k = true) := by
  constructor
  · intro raw st body hr h200 k hk
    unfold OcrP11.respond at hr
    cases hext : OcrP11.extract raw with
    | none =>
      rw [hext] at hr
      injection hr with hst hb
      subst hst
      exact absurd h200 (by decide)
    | some parsed =>
      rw [hext] at hr
      cases hproc : OcrP11.process parsed with
      | error e =>
        simp only [hproc] at hr
        injection hr with hst hb
        subst hst
        exact absurd h200 (by decide)
      | ok o =>
        simp only [hproc] at hr
        injection hr with hst hb
        subst hb
        obtain ⟨fs, rfl⟩ := process11_ok parsed o hproc
        show (getField ((OcrP11.corrections (OcrP11.out fs)).map
          fun p => (p.1, OcrP11.mvJson p.2)) k).isSome = true
        rw [getField_map_mv, getMV_corrections11, getMV_out11, if_pos hk]
        rfl
  · intro values raw st body hr h200 hobj k hk
    unfold A1.respond at hr
    cases hext : A1.extractAttempt raw with
    | none =>
      rw [hext] at hr
      injection hr with hst hb
      subst hb
      have hk6 : k = "keyFindings" ∨ k = "compensationAnalysis" ∨ k = "hhAnalysis" ∨
          k = "stewartAnalysis" ∨ k = "additionalCalculations" ∨ k = "differentials" := by
        simpa [A1.requiredKeys] using hk
      rcases hk6 with rfl | rfl | rfl | rfl | rfl | rfl <;> rfl
    | some j =>
      rw [hext] at hr
      cases j with
      | jnull =>
        unfold A1.finalize at hr
        injection hr with hst hb
        subst hst
        exact absurd h200 (by decide)
      | jobj fs =>
        unfold A1.finalize at hr
        injection hr with hst hb
        subst hb
        show (getField (A1.backfill fs A1.requiredKeys) k).isSome = true
        exact backfill_mem _ fs k hk
      | jbool b =>
        unfold A1.finalize at hr
        injection hr with hst hb
        subst hb
        exact absurd hobj (by simp [isObjB])
      | jnum q =>
        unfold A1.finalize at hr
        injection hr with hst hb
        subst hb
        exact absurd hobj (by simp [isObjB])
      | jstr s2 =>
        unfold A1.finalize at hr
        injection hr with hst hb
        subst hb
        exact absurd hobj (by simp [isObjB])
      | jarr l =>
        unfold A1.finalize at hr
        injection hr with hst hb
        subst hb
        exact absurd hobj (by simp [isObjB])

/-- Witness for C2: the 200 fallback body of analyze revision 1 on the
unparsable text `"garbage"` carries the `differentials` key. -/
theorem C2_required_keys_witness :
    hasKeyB (A1.respond
      ⟨JField.num ⟨74, 1⟩, JField.num ⟨50, 1⟩, JField.missing, JField.missing,
       JField.missing, JField.missing, JField.missing, JField.missing,
       JField.missing, JField.missing, JField.missing, JField.missing,
       JField.missing, JField.missing⟩ "garbage").2 "differentials" = true :=
  C2_required_keys.2
    ⟨JField.num ⟨74, 1⟩, JField.num ⟨50, 1⟩, JField.missing, JField.missing,
     JField.missing, JField.missing, JField.missing, JField.missing,
     JField.missing, JField.missing, JField.missing, JField.missing,
     JField.missing, JField.missing⟩ "garbage"
    (A1.respond
      ⟨JField.num ⟨74, 1⟩, JField.num ⟨50, 1⟩, JField.missing, JField.missing,
       JField.missing, JField.missing, JField.missing, JField.missing,
       JField.missing, JField.missing, JField.missing, JField.missing,
       JField.missing, JField.missing⟩ "garbage").1
    (A1.respond
      ⟨JField.num ⟨74, 1⟩, JField.num ⟨50, 1⟩, JField.missing, JField.missing,
       JField.missing, JField.missing, JField.missing, JField.missing,
       JField.missing, JField.missing, JField.missing, JField.missing,
       JField.missing, JField.missing⟩ "garbage").2
    rfl rfl rfl "differentials" (by decide)

/-- Counterexample to C2 as frozen: a top-level JSON array (`"[]"`) from
upstream is returned by analyze revision 1 with HTTP 200 but without the
required keys (`JSON.stringify` drops string-keyed properties assigned to
an array). -/
theorem C2_required_keys_counterexample :
    (A1.respond
      ⟨JField.num ⟨74, 1⟩, JField.num ⟨50, 1⟩, JField.missing, JField.missing,
       JField.missing, JField.missing, JField.missing, JField.missing,
       JField.missing, JField.missing, JField.missing, JField.missing,
       JField.missing, JField.missing⟩ "[]").1 = 200 ∧
    hasKeyB (A1.respond
      ⟨JField.num ⟨74, 1⟩, JField.num ⟨50, 1⟩, JField.missing, JField.missing,
       JField.missing, JField.missing, JField.missing, JField.missing,
       JField.missing, JField.missing, JField.missing, JField.missing,
       JField.missing, JField.missing⟩ "[]").2 "keyFindings" = false := by
  refine ⟨rfl, rfl⟩

/-- Claim C8 (amended): in analyze revision 2, each optional laboratory
field (pO₂, HCO₃⁻, Na⁺, K⁺, Cl⁻) contributes its value line to the
combined prompt when it is a number, and an explicit "not provided"
marker line when it is nullish.  In analyze revision 1 an optional
field's line is omitted entirely (no marker) when the field is `null`,
and an absent (`undefined`) field is rendered into the line as the text
"undefined". -/
theorem C8_prompt_field_markers :
    (∀ v ch st q, v.po2 = JField.num q →
      containsSub (A2.combinedPrompt v ch st)
        ("\n- pO₂: " ++ (JsNum.render q ++ " kPa")) = true) ∧
    (∀ v ch st, v.po2.nn = none →
      containsSub (A2.combinedPrompt v ch st) ("\n- pO₂: " ++ "not provided") = true) ∧
    (∀ v ch st q, v.hco3 = JField.num q →
      containsSub (A2.combinedPrompt v ch st) ("\n- HCO₃⁻: " ++ JsNum.render q) = true) ∧
    (∀ v ch st, v.hco3.nn = none →
      containsSub (A2.combinedPrompt v ch st) ("\n- HCO₃⁻: " ++ "not provided") = true) ∧
    (∀ v ch st q, v.sodium = JField.num q →
      containsSub (A2.combinedPrompt v ch st) ("\n- Na⁺: " ++ JsNum.render q) = true) ∧
    (∀ v ch st, v.sodium.nn = none →
      containsSub (A2.combinedPrompt v ch st) ("\n- Na⁺: " ++ "not provided") = true) ∧
    (∀ v ch st q, v.potassium = JField.num q →
      containsSub (A2.combinedPrompt v ch st) ("\n- K⁺: " ++ JsNum.render q) = true) ∧
    (∀ v ch st, v.potassium.nn = none →
      containsSub (A2.combinedPrompt v ch st) ("\n- K⁺: " ++ "not provided") = true) ∧
    (∀ v ch st q, v.chloride = JField.num q →
      containsSub (A2.combinedPrompt v ch st) ("\n- Cl⁻: " ++ JsNum.render q) = true) ∧
    (∀ v ch st, v.chloride.nn = none →
      containsSub (A2.combinedPrompt v ch st) ("\n- Cl⁻: " ++ "not provided") = true) ∧
    (∀ f pre suf, f.notNull = false → A1.optLine f pre suf = "") ∧
    (∀ pre suf, A1.optLine JField.missing pre suf = pre ++ "undefined" ++ suf) := by
  refine ⟨?_, ?_, ?_, ?_, ?_, ?_, ?_, ?_, ?_, ?_, ?_, ?_⟩
  · intro v ch st q h
    have h2 : A2.po2Str v = JsNum.render q ++ " kPa" := by
      unfold A2.po2Str
      rw [h]
      rfl
    unfold A2.combinedPrompt
    rw [h2]
    exact contains_concatStrs _ _ (by simp)
  · intro v ch st h
    have h2 : A2.po2Str v = "not provided" := by
      unfold A2.po2Str
      rw [h]
    unfold A2.combinedPrompt
    rw [h2]
    exact contains_concatStrs _ _ (by simp)
  · intro v ch st q h
    have h2 : A2.hco3Str v = JsNum.render q := by
      unfold A2.hco3Str
      rw [h]
      rfl
    unfold A2.combinedPrompt
    rw [h2]
    exact contains_concatStrs _ _ (by simp)
  · intro v ch st h
    have h2 : A2.hco3Str v = "not provided" := by
      unfold A2.hco3Str
      rw [h]
    unfold A2.combinedPrompt
    rw [h2]
    exact contains_concatStrs _ _ (by simp)
  · intro v ch st q h
    have h2 : A2.naStr v = JsNum.render q := by
      unfold A2.naStr
      rw [h]
      rfl
    unfold A2.combinedPrompt
    rw [h2]
    exact contains_concatStrs _ _ (by simp)
  · intro v ch st h
    have h2 : A2.naStr v = "not provided" := by
      unfold A2.naStr
      rw [h]
    unfold A2.combinedPrompt
    rw [h2]
    exact contains_concatStrs _ _ (by simp)
  · intro v ch st q h
    have h2 : A2.kStr v = JsNum.render q := by
      unfold A2.kStr
      rw [h]
      rfl
    unfold A2.combinedPrompt
    rw [h2]
    exact contains_concatStrs _ _ (by simp)
  · intro v ch st h
    have h2 : A2.kStr v = "not provided" := by
      unfold A2.kStr
      rw [h]
    unfold A2.combinedPrompt
    rw [h2]
    exact contains_concatStrs _ _ (by simp)
  · intro v ch st q h
    have h2 : A2.clStr v = JsNum.render q := by
      unfold A2.clStr
      rw [h]
      rfl
    unfold A2.combinedPrompt
    rw [h2]
    exact contains_concatStrs _ _ (by simp)
  · intro v ch st h
    have h2 : A2.clStr v = "not provided" := by
      unfold A2.clStr
      rw [h]
    unfold A2.combinedPrompt
    rw [h2]
    exact contains_concatStrs _ _ (by simp)
  · intro f pre suf h
    unfold A1.optLine
    rw [h]
    rfl
  · intro pre suf
    rfl

/-- Witness for C8: a concrete `values` object with a numeric pO₂ of
12 kPa and a nullish HCO₃⁻ yields a combined prompt containing the pO₂
value line and the HCO₃⁻ "not provided" marker. -/
theorem C8_prompt_field_markers_witness :
    containsSub (A2.combinedPrompt
      ⟨JField.num ⟨74, 1⟩, JField.num ⟨50, 1⟩, JField.num ⟨12, 0⟩, JField.fnull,
       JField.fnull, JField.fnull, JField.fnull, JField.fnull, JField.fnull,
       JField.fnull, JField.fnull, JField.fnull, JField.fnull, JField.fnull⟩
      none none) ("\n- pO₂: " ++ (JsNum.render ⟨12, 0⟩ ++ " kPa")) = true ∧
    containsSub (A2.combinedPrompt
      ⟨JField.num ⟨74, 1⟩, JField.num ⟨50, 1⟩, JField.num ⟨12, 0⟩, JField.fnull,
       JField.fnull, JField.fnull, JField.fnull, JField.fnull, JField.fnull,
       JField.fnull, JField.fnull, JField.fnull, JField.fnull, JField.fnull⟩
      none none) ("\n- HCO₃⁻: " ++ "not provided") = true :=
  ⟨C8_prompt_field_markers.1
     ⟨JField.num ⟨74, 1⟩, JField.num ⟨50, 1⟩, JField.num ⟨12, 0⟩, JField.fnull,
      JField.fnull, JField.fnull, JField.fnull, JField.fnull, JField.fnull,
      JField.fnull, JField.fnull, JField.fnull, JField.fnull, JField.fnull⟩
     none none ⟨12, 0⟩ rfl,
   C8_prompt_field_markers.2.2.2.1
     ⟨JField.num ⟨74, 1⟩, JField.num ⟨50, 1⟩, JField.num ⟨12, 0⟩, JField.fnull,
      JField.fnull, JField.fnull, JField.fnull, JField.fnull, JField.fnull,
      JField.fnull, JField.fnull, JField.fnull, JField.fnull, JField.fnull⟩
     none none rfl⟩

set_option maxRecDepth 4000 in
/-- Counterexample to C8 as frozen: in analyze revision 1, an absent
(`undefined`) pO₂ still produces a value line — rendered as
"undefined kPa (null mmHg)" — and a `null` pO₂ suppresses the line
entirely without any "not provided" marker anywhere in the prompt. -/
theorem C8_prompt_field_markers_counterexample :
    containsSub (A1.prompt
      ⟨JField.fnull, JField.fnull, JField.missing, JField.fnull, JField.fnull,
       JField.fnull, JField.fnull, JField.fnull, JField.fnull, JField.fnull,
       JField.fnull, JField.fnull, JField.fnull, JField.fnull⟩ none none)
      "• pO2: undefined kPa (null mmHg)" = true ∧
    containsSub (A1.prompt
      ⟨JField.fnull, JField.fnull, JField.fnull, JField.fnull, JField.fnull,
       JField.fnull, JField.fnull, JField.fnull, JField.fnull, JField.fnull,
       JField.fnull, JField.fnull, JField.fnull, JField.fnull⟩ none none)
      "• pO2" = false ∧
    containsSub (A1.prompt
      ⟨JField.fnull, JField.fnull, JField.fnull, JField.fnull, JField.fnull,
       JField.fnull, JField.fnull, JField.fnull, JField.fnull, JField.fnull,
       JField.fnull, JField.fnull, JField.fnull, JField.fnull⟩ none none)
      "not provided" = false := by
  refine ⟨by decide, by decide, by decide⟩

/-- Claim C9 (amended): in analyze revision 1 (with the API key
configured), a request whose `values.ph` or `values.pco2` is absent or
not a number is answered 400 without calling the completion service, a
missing `values` object is answered 400, and a request with both fields
numeric passes the gate and calls the service.  In analyze revision 2 the
gate tests truthiness instead: falsy numeric values (0) are also
rejected with 400. -/
theorem C9_validation_gate :
    (∀ k v, v.ph.isNumber = true → v.pco2.isNumber = true →
        A1.pre (some k) (some v) = (none, true)) ∧
    (∀ k v, v.ph.isNumber = false ∨ v.pco2.isNumber = false →
        A1.pre (some k) (some v) = (some 400, false)) ∧
    (∀ k, A1.pre (some k) none = (some 400, false)) ∧
    (∀ k v, v.ph.truthy = true → v.pco2.truthy = true →
        A2.pre (some k) (some v) = (none, true)) ∧
    (∀ k v, v.ph.truthy = false ∨ v.pco2.truthy = false →
        A2.pre (some k) (some v) = (some 400, false)) := by
  refine ⟨?_, ?_, ?_, ?_, ?_⟩
  · intro k v h1 h2
    simp [A1.pre, A1.gate, h1, h2]
  · intro k v h
    rcases h with h | h <;> simp [A1.pre, A1.gate, h]
  · intro k
    simp [A1.pre, A1.gate]
  · intro k v h1 h2
    simp [A2.pre, A2.gate, h1, h2]
  · intro k v h
    rcases h with h | h <;> simp [A2.pre, A2.gate, h]

/-- Witness for C9: with the key configured, a body with numeric pH 7.4
and pCO₂ 5.0 passes revision 1's gate and reaches the completion call,
while a body whose pH is absent is answered 400 with no call. -/
theorem C9_validation_gate_witness :
    A1.pre (some "key") (some
      ⟨JField.num ⟨74, 1⟩, JField.num ⟨50, 1⟩, JField.missing, JField.missing,
       JField.missing, JField.missing, JField.missing, JField.missing,
       JField.missing, JField.missing, JField.missing, JField.missing,
       JField.missing, JField.missing⟩) = (none, true) ∧
    A1.pre (some "key") (some
      ⟨JField.missing, JField.num ⟨50, 1⟩, JField.missing, JField.missing,
       JField.missing, JField.missing, JField.missing, JField.missing,
       JField.missing, JField.missing, JField.missing, JField.missing,
       JField.missing, JField.missing⟩) = (some 400, false) :=
  ⟨C9_validation_gate.1 "key"
     ⟨JField.num ⟨74, 1⟩, JField.num ⟨50, 1⟩, JField.missing, JField.missing,
      JField.missing, JField.missing, JField.missing, JField.missing,
      JField.missing, JField.missing, JField.missing, JField.missing,
      JField.missing, JField.missing⟩ rfl rfl,
   C9_validation_gate.2.1 "key"
     ⟨JField.missing, JField.num ⟨50, 1⟩, JField.missing, JField.missing,
      JField.missing, JField.missing, JField.missing, JField.missing,
      JField.missing, JField.missing, JField.missing, JField.missing,
      JField.missing, JField.missing⟩ (Or.inl rfl)⟩

/-- Counterexample to C9 as frozen: in analyze revision 2, a body with
pH = 0 and pCO₂ = 5.0 — both present numeric fields — is rejected with
400 and the completion service is not called, because the gate tests
truthiness and 0 is falsy. -/
theorem C9_validation_gate_counterexample :
    A2.pre (some "key") (some
      ⟨JField.num ⟨0, 0⟩, JField.num ⟨50, 1⟩, JField.missing, JField.missing,
       JField.missing, JField.missing, JField.missing, JField.missing,
       JField.missing, JField.missing, JField.missing, JField.missing,
       JField.missing, JField.missing⟩) = (some 400, false) ∧
    JField.isNumber (JField.num ⟨0, 0⟩) = true ∧
    JField.isNumber (JField.num ⟨50, 1⟩) = true := by
  refine ⟨rfl, rfl, rfl⟩
